import Mathlib

/-!
Verification development for the DirectX device-discovery library
(`src/library`).  The C++ sources are shallowly embedded: the platform
backends (DXCore adapter enumeration, WMI PnP queries, the D3DKMT registry
query protocol) are modelled as explicit input data, and each C++ routine
that manipulates that data is translated into an executable Lean function.
All functions keep the names and structure of their C++ counterparts.
-/

set_option maxRecDepth 4096

/-- Device filter enumeration (`include/DeviceFilter.h`). -/
inductive DeviceFilter
  | AllDevices
  | DisplaySupported
  | ComputeSupported
  | DisplayOnly
  | ComputeOnly
  | DisplayAndCompute
deriving DecidableEq, Repr

/-- PnP hardware ID tuple of a DXCore adapter (`DXCoreHardwareID`). -/
structure DXCoreHardwareID where
  vendorID : Nat
  deviceID : Nat
  subSysID : Nat
  revision : Nat
deriving DecidableEq, Repr

/-- One enumerated DirectX adapter (`src/Adapter.h`, struct `Adapter`). -/
structure Adapter where
  InstanceLuid : Int
  HardwareID : DXCoreHardwareID
  IsHardware : Bool
  IsIntegrated : Bool
  IsDetachable : Bool
  SupportsDisplay : Bool
  SupportsCompute : Bool
deriving DecidableEq, Repr

/-- Default-constructed `Adapter` (the `Adapter()` constructor zeroes every
field; `HardwareID` is value-initialised). -/
def Adapter.init : Adapter :=
  { InstanceLuid := 0
    HardwareID := ⟨0, 0, 0, 0⟩
    IsHardware := false
    IsIntegrated := false
    IsDetachable := false
    SupportsDisplay := false
    SupportsCompute := false }

/-- View of an `IDXCoreAdapter` handle: the properties and attribute-support
answers the platform returns for one adapter.  `attrD3D11Graphics`,
`attrD3D12Graphics` and `attrD3D12CoreCompute` are the results of
`IsAttributeSupported` for the three DXCore attribute GUIDs. -/
structure DXCoreAdapter where
  instanceLuid : Int
  hardwareID : DXCoreHardwareID
  isHardware : Bool
  isIntegrated : Bool
  isDetachable : Bool
  attrD3D11Graphics : Bool
  attrD3D12Graphics : Bool
  attrD3D12CoreCompute : Bool
deriving DecidableEq, Repr

namespace AdapterEnumeration

/-- `AdapterEnumeration::ExtractAdapterDetails` (`AdapterEnumeration.cpp`,
lines 128-174): `SupportsDisplay` is D3D11-graphics or D3D12-graphics
attribute support, and `SupportsCompute` is D3D12-graphics attribute
support (the source queries `DXCORE_ADAPTER_ATTRIBUTE_D3D12_GRAPHICS`, not
the core-compute attribute, on line 171). -/
def ExtractAdapterDetails (adapter : DXCoreAdapter) : Adapter :=
  { InstanceLuid := adapter.instanceLuid
    HardwareID := adapter.hardwareID
    IsHardware := adapter.isHardware
    IsIntegrated := adapter.isIntegrated
    IsDetachable := adapter.isDetachable
    SupportsDisplay := adapter.attrD3D11Graphics || adapter.attrD3D12Graphics
    SupportsCompute := adapter.attrD3D12Graphics }

/-- The filtering applied to each candidate adapter in
`AdapterEnumeration::EnumerateAdapters` (lines 71-91): software adapters are
dropped unconditionally, then the filter-mode checks, then the
integrated/detachable gates. -/
def adapterPassesFilter (filter : DeviceFilter) (includeIntegrated includeDetachable : Bool)
    (details : Adapter) : Bool :=
  details.IsHardware &&
  !((filter == .DisplayOnly && details.SupportsCompute) ||
    (filter == .ComputeOnly && details.SupportsDisplay) ||
    (filter == .DisplayAndCompute && (!details.SupportsDisplay || !details.SupportsCompute))) &&
  !(details.IsIntegrated && !includeIntegrated) &&
  !(details.IsDetachable && !includeDetachable)

/-- `std::map<int64_t, Adapter>::insert` as used on line 94 of
`AdapterEnumeration.cpp`: the pair is inserted only when the key is absent
(an associative-container insert does not overwrite an existing entry).
The map is modelled as an association list; the source container keeps its
entries sorted by key, which only affects iteration order and none of the
properties proved here depend on it. -/
def mapInsert (m : List (Int × Adapter)) (key : Int) (value : Adapter) :
    List (Int × Adapter) :=
  if m.any (fun entry => entry.1 == key) then m else m ++ [(key, value)]

/-- `std::map<int64_t, Adapter>::find`, returning the mapped value. -/
def mapFind (m : List (Int × Adapter)) (key : Int) : Option Adapter :=
  (m.find? (fun entry => entry.1 == key)).map (fun entry => entry.2)

/-- The body of the per-adapter loop in `EnumerateAdapters` (lines 58-96):
extracted details that pass the filters are inserted into the unique-adapter
map keyed by their LUID. -/
def enumerationStep (filter : DeviceFilter) (includeIntegrated includeDetachable : Bool)
    (acc : List (Int × Adapter)) (details : Adapter) : List (Int × Adapter) :=
  if adapterPassesFilter filter includeIntegrated includeDetachable details
  then mapInsert acc details.InstanceLuid details
  else acc

/-- `AdapterEnumeration::EnumerateAdapters` (lines 16-100), starting from the
cleared unique-adapter map: each created adapter list is walked in order and
every adapter's extracted details are filtered and inserted.  The argument
is the per-list sequence of already-extracted adapter details (the session
model composes this with `ExtractAdapterDetails`). -/
def EnumerateAdapters (filter : DeviceFilter) (includeIntegrated includeDetachable : Bool)
    (adapterLists : List (List Adapter)) : List (Int × Adapter) :=
  adapterLists.foldl
    (fun acc adapters => adapters.foldl (enumerationStep filter includeIntegrated includeDetachable) acc)
    []

end AdapterEnumeration

/-- Characters after the last path separator, accumulating the current
component in reverse. -/
def filenameAux : List Char → List Char → List Char
  | [], acc => acc.reverse
  | c :: rest, acc =>
    if c == '\\' || c == '/' then filenameAux rest [] else filenameAux rest (c :: acc)

/-- Final path segment of a path string, as `std::filesystem::path::filename`
computes it on Windows (both separator characters split components). -/
def pathFilename (path : String) : String :=
  String.mk (filenameAux path.toList [])

/-- Whether the first character list is an initial segment of the second
(structural recursion, used to model `std::wstring::find(sub, 0) == 0`). -/
def matchesFront : List Char → List Char → Bool
  | [], _ => true
  | _ :: _, [] => false
  | c :: cs, d :: ds => c == d && matchesFront cs ds

/-- Substring containment, modelling `std::wstring::find(sub) != npos`. -/
def containsSubstr (s sub : String) : Bool :=
  decide (List.IsInfix sub.toList s.toList)

/-- One additional runtime file (`src/Device.h`, struct `RuntimeFile`). -/
structure RuntimeFile where
  SourcePath : String
  DestinationFilename : String
deriving DecidableEq, Repr

/-- The `RuntimeFile` constructor: when no destination filename is given the
filename of the source path is used. -/
def RuntimeFile.create (sourcePath destinationFilename : String) : RuntimeFile :=
  if destinationFilename.isEmpty
  then { SourcePath := sourcePath, DestinationFilename := pathFilename sourcePath }
  else { SourcePath := sourcePath, DestinationFilename := destinationFilename }

/-- A PnP device enriched with adapter and driver data (`src/Device.h`,
struct `Device`). -/
structure Device where
  DeviceAdapter : Adapter
  ID : String
  Description : String
  DriverRegistryKey : String
  DriverStorePath : String
  LocationPath : String
  RuntimeFiles : List RuntimeFile
  RuntimeFilesWow64 : List RuntimeFile
  Vendor : String
deriving DecidableEq, Repr

/-- Default-constructed `Device` (all strings empty, lists empty, adapter
default-constructed);  used as the fallback value of checked list indexing. -/
def Device.init : Device :=
  { DeviceAdapter := Adapter.init
    ID := ""
    Description := ""
    DriverRegistryKey := ""
    DriverStorePath := ""
    LocationPath := ""
    RuntimeFiles := []
    RuntimeFilesWow64 := []
    Vendor := "" }

/-- The library's internal error type (`src/ErrorHandling.h`,
class `DeviceDiscoveryError`). -/
structure DeviceDiscoveryError where
  message : String
  file : String
  function : String
  line : Nat
deriving DecidableEq, Repr

/-- The `CreateError` macro: builds an error carrying the source location.
The location metadata is not tracked by the model, so the location fields
are left empty. -/
def createError (message : String) : DeviceDiscoveryError :=
  { message := message, file := "", function := "", line := 0 }

/-- `DeviceDiscoveryError::Wrap`: prepends an outer context message,
keeping the inner error's location. -/
def DeviceDiscoveryError.Wrap (inner : DeviceDiscoveryError) (message : String) :
    DeviceDiscoveryError :=
  { message := message ++ ": " ++ inner.message
    file := inner.file
    function := inner.function
    line := inner.line }

/-- `DeviceDiscoveryError::Pretty`: the message followed by the bracketed
file, line and function details. -/
def DeviceDiscoveryError.Pretty (e : DeviceDiscoveryError) : String :=
  e.message ++ " [" ++ pathFilename e.file ++ ":" ++ toString e.line ++ " " ++ e.function ++ "]"

/-- The C++ exception classes that can cross `DeviceDiscoveryImp` call
boundaries.  `invalidArgument` and `outOfRangeError` model
`std::invalid_argument` and `std::out_of_range`, which both derive from
`std::logic_error` (not from `std::runtime_error`). -/
inductive CppException
  | discoveryError (err : DeviceDiscoveryError)
  | runtimeError (what : String)
  | invalidArgument (what : String)
  | outOfRangeError (what : String)
deriving DecidableEq, Repr

/-- The catch clauses of `DeviceDiscoveryImp::DiscoverDevices`
(`DeviceDiscoveryImp.cpp`, lines 54-59) catch exactly `DeviceDiscoveryError`
and `std::runtime_error`; a `std::logic_error` (such as the
`std::invalid_argument` thrown by `std::stoll`) is not caught. -/
def CppException.caughtByDiscover : CppException → Bool
  | .discoveryError _ => true
  | .runtimeError _ => true
  | .invalidArgument _ => false
  | .outOfRangeError _ => false

/-- Result of `std::stoll`. -/
inductive StollResult
  | value (n : Int)
  | invalidArgument
  | outOfRange
deriving DecidableEq, Repr

/-- Model of `std::stoll` (base 10): leading whitespace is skipped, an
optional sign is consumed, then the longest run of decimal digits is
converted; no digits means `std::invalid_argument`, and a value outside the
64-bit signed range means `std::out_of_range`. -/
def stoll (s : String) : StollResult :=
  let chars := s.toList.dropWhile (fun c =>
    c == ' ' || c == '\t' || c == '\n' || c == '\r' || c == '\x0b' || c == '\x0c')
  let signAndRest : Bool × List Char :=
    match chars with
    | '-' :: cs => (true, cs)
    | '+' :: cs => (false, cs)
    | cs => (false, cs)
  let digits := signAndRest.2.takeWhile (fun c => c.isDigit)
  if digits.isEmpty then .invalidArgument
  else
    let magnitude : Nat := digits.foldl (fun acc c => acc * 10 + (c.toNat - 48)) 0
    let signed : Int := if signAndRest.1 then -(magnitude : Int) else (magnitude : Int)
    if signed < -(2 ^ 63) || (2 ^ 63) ≤ signed then .outOfRange else .value signed

/-- A COM VARIANT value as inspected by `WmiQuery::ExtractDeviceDetails`:
a 64-bit integer (`VT_I8`), a string (`VT_BSTR`), an array of strings
(`VT_ARRAY | VT_BSTR`), or any other variant type. -/
inductive Variant
  | VInt64 (value : Int)
  | VString (value : String)
  | VStringArray (values : List String)
  | VOther
deriving DecidableEq, Repr

/-- View of one `Win32_PnPEntity` WMI object: the scalar properties read
directly, plus the `Win32_PnPDeviceProperty` objects returned by
`GetDeviceProperties` as `(KeyName, Data)` pairs; a `none` data field models
a property whose `Data` retrieval fails (the source skips it). -/
structure PnpDeviceObject where
  deviceID : String
  description : String
  vendor : String
  properties : List (String × Option Variant)
deriving DecidableEq, Repr

namespace WmiQuery

/-- The string form of `DEVPKEY_Device_AdapterLuid` produced by
`DevPropKeyToString` (`WmiQuery.cpp`, lines 14-38). -/
def devPropKeyLUID : String := "\x7b60B193CB-5276-4D0F-96FC-F173ABAD3EC6\x7d 2"

/-- Dispatch on one device property inside the loop of
`WmiQuery::ExtractDeviceDetails` (lines 283-348): the driver subkey is
prefixed with the control-class registry path, the first location path is
taken, and the adapter LUID is accepted as a raw 64-bit integer or parsed
from its string form with `std::stoll` (whose failures are
`std::logic_error`s, not `DeviceDiscoveryError`s). -/
def applyDeviceProperty (details : Device) (property : String × Option Variant) :
    Except CppException Device :=
  match property.2 with
  | none => .ok details
  | some data =>
    if property.1 == "DEVPKEY_Device_Driver" then
      match data with
      | .VString value =>
        .ok { details with DriverRegistryKey :=
          "HKEY_LOCAL_MACHINE\\SYSTEM\\CurrentControlSet\\Control\\Class\\" ++ value }
      | _ => .error (.discoveryError (createError "DeviceDriver value was not a string"))
    else if property.1 == "DEVPKEY_Device_LocationPaths" then
      match data with
      | .VStringArray values => .ok { details with LocationPath := values.head?.getD "" }
      | _ => .error (.discoveryError (createError "LocationPaths value was not an array of strings"))
    else if property.1 == devPropKeyLUID then
      match data with
      | .VInt64 value =>
        .ok { details with DeviceAdapter := { details.DeviceAdapter with InstanceLuid := value } }
      | .VString value =>
        match stoll value with
        | .value parsed =>
          .ok { details with DeviceAdapter := { details.DeviceAdapter with InstanceLuid := parsed } }
        | .invalidArgument => .error (.invalidArgument "stoll")
        | .outOfRange => .error (.outOfRangeError "stoll")
      | _ => .error (.discoveryError (createError "LUID value was not a 64-bit integer or a string"))
    else .ok details

/-- `WmiQuery::ExtractDeviceDetails` (lines 195-351): the scalar properties
fill the record, then the device-property array is folded over.  The model
assumes the scalar property retrievals succeed (their values are fields of
the input record); a failing backend query is represented at the call site
by `GetDevicesForAdapters`'s query-result argument. -/
def ExtractDeviceDetails (device : PnpDeviceObject) : Except CppException Device :=
  let init : Device :=
    { Device.init with
        ID := device.deviceID
        Description := device.description
        Vendor := device.vendor }
  device.properties.foldlM applyDeviceProperty init

/-- The device-matching loop of `WmiQuery::GetDevicesForAdapters`
(lines 161-190): each returned PnP object's details are extracted, its
adapter LUID is looked up in the unique-adapter map, and on a match the
placeholder adapter is replaced by the authoritative record and the device
is appended; on no match the record is dropped. -/
def correlateLoop (adapters : List (Int × Adapter)) :
    List Device → List PnpDeviceObject → Except CppException (List Device)
  | devices, [] => .ok devices
  | devices, pnpDevice :: rest =>
    match ExtractDeviceDetails pnpDevice with
    | .error exn => .error exn
    | .ok details =>
      match AdapterEnumeration.mapFind adapters details.DeviceAdapter.InstanceLuid with
      | some matchingAdapter =>
        correlateLoop adapters (devices ++ [{ details with DeviceAdapter := matchingAdapter }]) rest
      | none => correlateLoop adapters devices rest

/-- `WmiQuery::GetDevicesForAdapters` (lines 119-193): an empty adapter map
short-circuits to an empty result without querying WMI; otherwise the WQL
query either fails (a `DeviceDiscoveryError` wrapped with context) or
returns the PnP objects processed by the matching loop. -/
def GetDevicesForAdapters (adapters : List (Int × Adapter))
    (queryResult : Except DeviceDiscoveryError (List PnpDeviceObject)) :
    Except CppException (List Device) :=
  if adapters.isEmpty then .ok []
  else
    match queryResult with
    | .error err => .error (.discoveryError (err.Wrap "WQL query execution failed"))
    | .ok pnpDevices => correlateLoop adapters [] pnpDevices

/-- The adapter LUID that one PnP object contributes to the correlated
result: the LUID of its extracted details when that LUID matches an entry of
the adapter map, and `none` when extraction fails or no entry matches. -/
def matchedLuid (adapters : List (Int × Adapter)) (record : PnpDeviceObject) : Option Int :=
  match ExtractDeviceDetails record with
  | .ok details =>
    if (AdapterEnumeration.mapFind adapters details.DeviceAdapter.InstanceLuid).isSome
    then some details.DeviceAdapter.InstanceLuid
    else none
  | .error _ => none

/-- The sequence of matched adapter LUIDs of a WMI query result. -/
def matchedLuids (adapters : List (Int × Adapter))
    (queryResult : Except DeviceDiscoveryError (List PnpDeviceObject)) : List Int :=
  match queryResult with
  | .error _ => []
  | .ok pnpDevices => pnpDevices.filterMap (matchedLuid adapters)

end WmiQuery

/-- An adapter map is key-consistent when every entry's value carries the
entry's key as its LUID; `AdapterEnumeration::EnumerateAdapters` only
creates such maps, since it always inserts an adapter under its own LUID. -/
def AdapterMapKeyConsistent (m : List (Int × Adapter)) : Prop :=
  ∀ entry ∈ m, entry.2.InstanceLuid = entry.1

/-- The platform inputs that `RegistryQuery::FillDriverDetails` consumes for
one device: the outcome of `D3DKMTOpenAdapterFromLuid`, the outcome of the
buffered driver-store path query (`QueryD3DRegistryInfo::PerformQuery`,
whose grow-and-retry protocol is abstracted into its final result), the
`SystemRoot` environment variable, and for each registry sub-key name the
outcome of opening it and enumerating its `REG_MULTI_SZ` values
(`RegistryQuery::OpenKeyFromString` plus
`RegistryQuery::EnumerateMultiStringValues`, as `(value name, decoded
strings)` pairs in the iteration order of the value map). -/
structure RegistryBackend where
  openAdapterError : Option DeviceDiscoveryError
  driverStoreQuery : Except DeviceDiscoveryError String
  systemRoot : String
  subkeyValues : String → Except DeviceDiscoveryError (List (String × List String))

namespace RegistryQuery

/-- Expansion of the well-known system-root placeholder
(`RegistryQuery.cpp`, lines 175-180): a path beginning with the 11-character
`\SystemRoot` has that span replaced by the environment's system root. -/
def expandSystemRoot (path systemRoot : String) : String :=
  if matchesFront ("\\SystemRoot").toList path.toList
  then systemRoot ++ (path.drop 11)
  else path

/-- The body of the per-value loop of `RegistryQuery::ProcessRuntimeFiles`
(lines 122-142): an empty multi-string value contributes nothing; otherwise
a `RuntimeFile` is built from the first string, with the second string as
destination exactly when there are two strings, and appended unless its
destination filename already occurs in the list (the colliding later entry
is skipped). -/
def runtimeFileStep (list : List RuntimeFile) (value : String × List String) :
    List RuntimeFile :=
  match value.2 with
  | [] => list
  | sourcePath :: _ =>
    let newFile := RuntimeFile.create sourcePath
      (match value.2 with
       | [_, destination] => destination
       | _ => "")
    if list.any (fun f => f.DestinationFilename == newFile.DestinationFilename)
    then list
    else list ++ [newFile]

/-- `RegistryQuery::ProcessRuntimeFiles` (lines 112-147): the sub-key's
values are enumerated and folded into the device's System32 or SysWOW64
runtime-file list; any `DeviceDiscoveryError` raised while opening or
enumerating the sub-key is caught and logged, leaving the device
unmodified (zero files from that source). -/
def ProcessRuntimeFiles (device : Device) (key : String) (isWow64 : Bool)
    (backend : RegistryBackend) : Device :=
  match backend.subkeyValues key with
  | .error _ => device
  | .ok values =>
    if isWow64
    then { device with RuntimeFilesWow64 := values.foldl runtimeFileStep device.RuntimeFilesWow64 }
    else { device with RuntimeFiles := values.foldl runtimeFileStep device.RuntimeFiles }

/-- The `RuntimeFile` entries that the value list of one sub-key would
construct, in processing order and before destination-collision
deduplication. -/
def constructedRuntimeFiles (values : List (String × List String)) : List RuntimeFile :=
  values.filterMap (fun value =>
    match value.2 with
    | [] => none
    | sourcePath :: _ =>
      some (RuntimeFile.create sourcePath
        (match value.2 with
         | [_, destination] => destination
         | _ => "")))

/-- `RegistryQuery::FillDriverDetails` (lines 149-198): opening the adapter
and the driver-store path query are fatal (their errors are wrapped and
propagate); the system-root placeholder is expanded; inside a container
(driver-store path containing `HostDriverStore`) runtime-file enumeration is
skipped; otherwise the four well-known sub-keys are processed best-effort in
order. -/
def FillDriverDetails (device : Device) (backend : RegistryBackend) :
    Except DeviceDiscoveryError Device :=
  match backend.openAdapterError with
  | some err =>
    .error (err.Wrap ("D3DKMTOpenAdapterFromLuid failed to open adapter with LUID " ++
      toString device.DeviceAdapter.InstanceLuid))
  | none =>
    match backend.driverStoreQuery with
    | .error err => .error (err.Wrap "D3DKMTQueryAdapterInfo failed")
    | .ok outputString =>
      let storePath := expandSystemRoot outputString backend.systemRoot
      let withPath := { device with DriverStorePath := storePath }
      if containsSubstr storePath "HostDriverStore" then .ok withPath
      else
        let step1 := ProcessRuntimeFiles withPath "CopyToVmOverwrite" false backend
        let step2 := ProcessRuntimeFiles step1 "CopyToVmWhenNewer" false backend
        let step3 := ProcessRuntimeFiles step2 "CopyToVmOverwriteWow64" true backend
        let step4 := ProcessRuntimeFiles step3 "CopyToVmWhenNewerWow64" true backend
        .ok step4

end RegistryQuery

/-- The loop over `this->devices` in `DeviceDiscoveryImp::DiscoverDevices`
(lines 48-50), with the in-place mutation made explicit: devices are
enriched in order; a fatal `FillDriverDetails` error stops the loop, leaving
the already-processed devices enriched and the remaining ones (including the
failing one) as correlation produced them.  The error case carries the
device list as it stands when the exception escapes the loop. -/
def fillAllDriverDetails (registryBackends : Nat → RegistryBackend) :
    List Device → Nat → Except (DeviceDiscoveryError × List Device) (List Device)
  | [], _ => .ok []
  | device :: rest, index =>
    match RegistryQuery.FillDriverDetails device (registryBackends index) with
    | .error err => .error (err, device :: rest)
    | .ok enriched =>
      match fillAllDriverDetails registryBackends rest (index + 1) with
      | .error (err, restAtError) => .error (err, enriched :: restAtError)
      | .ok restEnriched => .ok (enriched :: restEnriched)

/-- One `IDXCoreAdapterList` handle created during enumeration: the raw
adapters it yields, and the staleness it reports when `IsStale` is queried
later. -/
structure AdapterListHandle where
  stale : Bool
  rawAdapters : List DXCoreAdapter
deriving DecidableEq, Repr

/-- The state of an `AdapterEnumeration` object: the adapter-list handles
kept from the last `EnumerateAdapters` call and the unique-adapter map. -/
structure EnumerationState where
  adapterLists : List AdapterListHandle
  uniqueAdapters : List (Int × Adapter)
deriving DecidableEq, Repr

/-- `AdapterEnumeration::IsStale` (`AdapterEnumeration.cpp`, lines 106-126):
stale when no enumeration has been performed (no lists) or any held
adapter-list handle reports staleness. -/
def EnumerationState.IsStale (es : EnumerationState) : Bool :=
  es.adapterLists.isEmpty || es.adapterLists.any (fun list => list.stale)

/-- The state of a `DeviceDiscoveryImp` session (`DeviceDiscoveryImp.h`):
the device list, the last-error string, and the helper objects
(`enumeration` and `wmi`), which are null until the first `DiscoverDevices`
call constructs them and whose presence is exactly what
`DeviceDiscoveryImp::HaveDevices` tests. -/
structure DiscoverySession where
  devices : List Device
  lastError : String
  helpers : Option EnumerationState
deriving DecidableEq, Repr

/-- A newly constructed session: empty device list, empty last error, null
helper objects. -/
def DiscoverySession.fresh : DiscoverySession :=
  { devices := [], lastError := "", helpers := none }

/-- `DeviceDiscoveryImp::HaveDevices` (lines 241-243): true exactly when the
helper objects exist, regardless of whether any discovery succeeded. -/
def DiscoverySession.HaveDevices (s : DiscoverySession) : Bool :=
  s.helpers.isSome

/-- `DeviceDiscoveryImp::IsRefreshRequired` (lines 18-25): with helper
objects present the enumeration's staleness is reported; otherwise a refresh
is required. -/
def DiscoverySession.IsRefreshRequired (s : DiscoverySession) : Bool :=
  match s.helpers with
  | some es => es.IsStale
  | none => true

/-- The unique-adapter map a successful `EnumerateAdapters` call computes
from the created adapter lists: per-adapter detail extraction composed with
the filtering-and-dedup fold. -/
def sessionUniqueAdapters (filter : DeviceFilter) (includeIntegrated includeDetachable : Bool)
    (lists : List AdapterListHandle) : List (Int × Adapter) :=
  AdapterEnumeration.EnumerateAdapters filter includeIntegrated includeDetachable
    (lists.map (fun list => list.rawAdapters.map AdapterEnumeration.ExtractAdapterDetails))

/-- Outcome of one `AdapterEnumeration::EnumerateAdapters` call: either the
created adapter lists, or a thrown `DeviceDiscoveryError` together with the
enumeration state left behind (the call clears both containers on entry and
fails part-way through rebuilding them). -/
inductive EnumOutcome
  | created (lists : List AdapterListHandle)
  | threw (err : DeviceDiscoveryError) (stateLeft : EnumerationState)

/-- The platform responses consumed by one `DiscoverDevices` call:
construction of the helper objects (which can itself fail on the first
call), the enumeration outcome, the WMI query result, and the registry
backend for each correlated device (by position in the device list). -/
structure DiscoverBackend where
  constructionError : Option DeviceDiscoveryError
  enumOutcome : EnumOutcome
  pnpQueryResult : Except DeviceDiscoveryError (List PnpDeviceObject)
  registryBackends : Nat → RegistryBackend

/-- What a `DeviceDiscoveryImp::DiscoverDevices` call does at the language
boundary: returns `true`, returns `false`, or lets a C++ exception that
matches no catch clause propagate out of the function. -/
inductive DiscoverOutcome
  | success
  | failure
  | uncaughtException (exn : CppException)
deriving DecidableEq, Repr

/-- The tail of `DeviceDiscoveryImp::DiscoverDevices` once enumeration has
succeeded: the session has kept the new enumeration state; the correlation
result is either assigned to `this->devices` and enriched in place, or its
exception is handled by the catch clauses — `DeviceDiscoveryError` and
`std::runtime_error` become a `false` return with the last error set, and
any other exception escapes uncaught with the session as the throw left it. -/
def discoverWithCorrelation (s : DiscoverySession) (lists : List AdapterListHandle)
    (uniqueAdapters : List (Int × Adapter)) (registryBackends : Nat → RegistryBackend)
    (correlation : Except CppException (List Device)) :
    DiscoverySession × DiscoverOutcome :=
  let afterEnum : DiscoverySession :=
    { s with helpers := some { adapterLists := lists, uniqueAdapters := uniqueAdapters } }
  match correlation with
  | .error (.discoveryError err) =>
    ({ afterEnum with lastError := err.Pretty }, .failure)
  | .error (.runtimeError what) =>
    ({ afterEnum with lastError := what }, .failure)
  | .error exn =>
    (afterEnum, .uncaughtException exn)
  | .ok correlated =>
    match fillAllDriverDetails registryBackends correlated 0 with
    | .error (err, devicesAtError) =>
      ({ afterEnum with devices := devicesAtError, lastError := err.Pretty }, .failure)
    | .ok enriched =>
      ({ afterEnum with devices := enriched, lastError := "" }, .success)

/-- `DeviceDiscoveryImp::DiscoverDevices` (`DeviceDiscoveryImp.cpp`, lines
27-60).  Helper objects are created on first use; the three stages run in
order; `this->devices` is assigned as soon as `GetDevicesForAdapters`
returns, before the driver-details loop; a `DeviceDiscoveryError` or
`std::runtime_error` thrown by any stage is converted to a `false` return
with the last-error string set, while any other exception escapes with the
session state as the throw left it. -/
def DiscoverDevices (s : DiscoverySession) (filter : DeviceFilter)
    (includeIntegrated includeDetachable : Bool) (backend : DiscoverBackend) :
    DiscoverySession × DiscoverOutcome :=
  match s.helpers, backend.constructionError with
  | none, some err => ({ s with lastError := err.Pretty }, .failure)
  | _, _ =>
    match backend.enumOutcome with
    | .threw err stateLeft =>
      ({ s with helpers := some stateLeft, lastError := err.Pretty }, .failure)
    | .created lists =>
      let uniqueAdapters := sessionUniqueAdapters filter includeIntegrated includeDetachable lists
      discoverWithCorrelation s lists uniqueAdapters backend.registryBackends
        (WmiQuery.GetDevicesForAdapters uniqueAdapters backend.pnpQueryResult)

/-- `DeviceDiscoveryImp::GetNumDevices` (lines 62-70): the count of the
current device list once the helper objects exist (clearing the last
error), and the -1 sentinel with the last error set before then. -/
def GetNumDevices (s : DiscoverySession) : DiscoverySession × Int :=
  if s.HaveDevices
  then ({ s with lastError := "" }, (s.devices.length : Int))
  else ({ s with lastError := "attempted to retrieve device count before performing device discovery" }, -1)

/-- `DeviceDiscoveryImp::ValidateRequestedDevice` (lines 249-260): throws
when the helper objects are missing or the index is out of range. -/
def validateRequestedDevice (s : DiscoverySession) (device : Nat) :
    Option DeviceDiscoveryError :=
  if !s.HaveDevices then
    some (createError "attempted to retrieve device details before performing device discovery")
  else if s.devices.length ≤ device then
    some (createError ("requested device index is invalid: " ++ toString device))
  else none

/-- The `VERIFY_DEVICE` / `RETURN_SUCCESS` pattern shared by every
per-device accessor of `DeviceDiscoveryImp` (lines 72-239): validation
failure stores the error's message and returns the accessor's sentinel;
otherwise the last error is cleared and the requested field of the indexed
device is returned. -/
def deviceFieldAccessor {α : Type} (s : DiscoverySession) (device : Nat)
    (sentinel : α) (field : Device → α) : DiscoverySession × α :=
  match validateRequestedDevice s device with
  | some err => ({ s with lastError := err.message }, sentinel)
  | none => ({ s with lastError := "" }, field (s.devices.getD device Device.init))

/-- `DeviceDiscoveryImp::GetDeviceAdapterLUID` (sentinel -1). -/
def GetDeviceAdapterLUID (s : DiscoverySession) (device : Nat) : DiscoverySession × Int :=
  deviceFieldAccessor s device (-1) (fun d => d.DeviceAdapter.InstanceLuid)

/-- `DeviceDiscoveryImp::GetDeviceID` (sentinel: null pointer). -/
def GetDeviceID (s : DiscoverySession) (device : Nat) : DiscoverySession × Option String :=
  deviceFieldAccessor s device none (fun d => some d.ID)

/-- `DeviceDiscoveryImp::GetNumRuntimeFiles` (sentinel -1). -/
def GetNumRuntimeFiles (s : DiscoverySession) (device : Nat) : DiscoverySession × Int :=
  deviceFieldAccessor s device (-1) (fun d => (d.RuntimeFiles.length : Int))

/-- `DeviceDiscoveryImp::DoesDeviceSupportCompute` (sentinel -1). -/
def DoesDeviceSupportCompute (s : DiscoverySession) (device : Nat) : DiscoverySession × Int :=
  deviceFieldAccessor s device (-1) (fun d => if d.DeviceAdapter.SupportsCompute then 1 else 0)

/-! Concrete fixtures: sample platform responses used to exercise the
embedded pipeline on closed inputs. -/

/-- A hardware adapter record with LUID 7 (concrete test input). -/
def adapterFirst : Adapter :=
  { InstanceLuid := 7
    HardwareID := ⟨1, 2, 3, 4⟩
    IsHardware := true
    IsIntegrated := false
    IsDetachable := false
    SupportsDisplay := true
    SupportsCompute := false }

/-- A second hardware adapter record sharing LUID 7 but differing in its
capability fields (concrete test input). -/
def adapterSecond : Adapter :=
  { InstanceLuid := 7
    HardwareID := ⟨1, 2, 3, 5⟩
    IsHardware := true
    IsIntegrated := false
    IsDetachable := false
    SupportsDisplay := true
    SupportsCompute := true }

/-- A display-only hardware adapter with LUID 11 (concrete test input). -/
def displayOnlyAdapter : Adapter :=
  { adapterFirst with InstanceLuid := 11, SupportsDisplay := true, SupportsCompute := false }

/-- A compute-only hardware adapter record with LUID 12 (concrete test
input; such a record is constructible even though detail extraction never
produces one). -/
def computeOnlyAdapter : Adapter :=
  { adapterFirst with InstanceLuid := 12, SupportsDisplay := false, SupportsCompute := true }

/-- A display-and-compute hardware adapter with LUID 13 (concrete test
input). -/
def bothAdapter : Adapter :=
  { adapterFirst with InstanceLuid := 13, SupportsDisplay := true, SupportsCompute := true }

/-- A raw DXCore adapter reporting D3D12-graphics support (concrete test
input). -/
def rawComputeCapable : DXCoreAdapter :=
  { instanceLuid := 2
    hardwareID := ⟨1, 2, 3, 4⟩
    isHardware := true
    isIntegrated := false
    isDetachable := false
    attrD3D11Graphics := false
    attrD3D12Graphics := true
    attrD3D12CoreCompute := true }

/-- A raw hardware DXCore adapter supporting none of the graphics
attributes (concrete test input). -/
def rawBare : DXCoreAdapter :=
  { rawComputeCapable with
      instanceLuid := 3
      attrD3D12Graphics := false
      attrD3D12CoreCompute := true }

/-- The raw DXCore adapter behind the sample discovery runs: LUID 5,
hardware, supporting all three attributes. -/
def sampleRaw : DXCoreAdapter :=
  { instanceLuid := 5
    hardwareID := ⟨0x10DE, 0x2204, 0, 0xA1⟩
    isHardware := true
    isIntegrated := false
    isDetachable := false
    attrD3D11Graphics := true
    attrD3D12Graphics := true
    attrD3D12CoreCompute := true }

/-- The extracted details of `sampleRaw`. -/
def sampleAdapter : Adapter := AdapterEnumeration.ExtractAdapterDetails sampleRaw

/-- A one-entry unique-adapter map holding `sampleAdapter` under its LUID. -/
def sampleAdapterMap : List (Int × Adapter) := [(5, sampleAdapter)]

/-- A WMI PnP object whose adapter-LUID property is the raw 64-bit value 5
(concrete test input). -/
def samplePnpRecord : PnpDeviceObject :=
  { deviceID := "PCI\\VEN_10DE"
    description := "GPU"
    vendor := "NVIDIA"
    properties := [(WmiQuery.devPropKeyLUID, some (Variant.VInt64 5))] }

/-- A WMI PnP object whose adapter-LUID property is a string that does not
parse as a 64-bit integer (concrete test input). -/
def badLuidRecord : PnpDeviceObject :=
  { samplePnpRecord with properties := [(WmiQuery.devPropKeyLUID, some (Variant.VString "GPU-LUID"))] }

/-- The device produced by correlating `samplePnpRecord` against
`sampleAdapterMap`. -/
def sampleCorrelatedDevice : Device :=
  { Device.init with
      DeviceAdapter := sampleAdapter
      ID := "PCI\\VEN_10DE"
      Description := "GPU"
      Vendor := "NVIDIA" }

/-- `sampleCorrelatedDevice` after driver-metadata resolution against
`okRegistryBackend`. -/
def sampleEnrichedDevice : Device :=
  { sampleCorrelatedDevice with DriverStorePath := "C:\\DriverStore\\nv" }

/-- One fresh, non-stale adapter-list handle yielding `sampleRaw`. -/
def goodLists : List AdapterListHandle := [{ stale := false, rawAdapters := [sampleRaw] }]

/-- One stale adapter-list handle. -/
def staleLists : List AdapterListHandle := [{ stale := true, rawAdapters := [sampleRaw] }]

/-- A registry backend whose mandatory queries succeed and whose sub-keys
are all empty (concrete test input). -/
def okRegistryBackend : RegistryBackend :=
  { openAdapterError := none
    driverStoreQuery := .ok "C:\\DriverStore\\nv"
    systemRoot := "C:\\Windows"
    subkeyValues := fun _ => .ok [] }

/-- A registry backend whose adapter-open call fails (concrete test
input). -/
def failRegistryBackend : RegistryBackend :=
  { okRegistryBackend with openAdapterError := some (createError "unknown adapter") }

/-- A discovery backend for which every stage succeeds. -/
def successBackend : DiscoverBackend :=
  { constructionError := none
    enumOutcome := .created goodLists
    pnpQueryResult := .ok [samplePnpRecord]
    registryBackends := fun _ => okRegistryBackend }

/-- A discovery backend whose WMI query fails. -/
def wmiFailBackend : DiscoverBackend :=
  { successBackend with pnpQueryResult := .error (createError "WMI connection lost") }

/-- A discovery backend whose driver-metadata stage fails. -/
def registryFailBackend : DiscoverBackend :=
  { successBackend with registryBackends := fun _ => failRegistryBackend }

/-- A discovery backend whose WMI query returns `badLuidRecord`. -/
def badLuidBackend : DiscoverBackend :=
  { successBackend with pnpQueryResult := .ok [badLuidRecord] }

/-- A discovery backend whose enumeration stage throws. -/
def enumFailBackend : DiscoverBackend :=
  { successBackend with
      enumOutcome := .threw (createError "CreateAdapterList failed") { adapterLists := [], uniqueAdapters := [] } }

/-- A discovery backend whose enumeration produces a stale adapter list. -/
def staleListsBackend : DiscoverBackend :=
  { successBackend with enumOutcome := .created staleLists, pnpQueryResult := .ok [] }

/-- A session holding one device from an earlier successful discovery. -/
def oldSession : DiscoverySession :=
  { devices := [{ Device.init with ID := "OLD-DEVICE" }]
    lastError := ""
    helpers := some { adapterLists := goodLists, uniqueAdapters := sampleAdapterMap } }

/-- Two registry multi-string values whose entries resolve to the same
destination filename (concrete test input). -/
def collideValues : List (String × List String) :=
  [("A", ["x\\common.dll"]), ("B", ["y\\z\\common.dll"])]

/-- A registry backend whose `CopyToVmOverwrite` sub-key yields
`collideValues` (concrete test input). -/
def collideBackend : RegistryBackend :=
  { okRegistryBackend with
      subkeyValues := fun k => if k == "CopyToVmOverwrite" then .ok collideValues else .ok [] }

/-- A registry backend whose `CopyToVmWhenNewer` sub-key enumeration fails
(concrete test input). -/
def subkeyFailBackend : RegistryBackend :=
  { okRegistryBackend with
      subkeyValues := fun k =>
        if k == "CopyToVmWhenNewer" then .error (createError "RegEnumValueW failed")
        else .ok [("A", ["f.dll"])] }

/-- `subkeyFailBackend` with the failing sub-key delivering no values
instead (concrete test input). -/
def subkeyEmptyBackend : RegistryBackend :=
  { okRegistryBackend with
      subkeyValues := fun k =>
        if k == "CopyToVmWhenNewer" then .ok []
        else .ok [("A", ["f.dll"])] }

/-! Lemmas about the enumeration fold. -/

namespace AdapterEnumeration

theorem mapFind_mapInsert (m : List (Int × Adapter)) (j k : Int) (v : Adapter) :
    mapFind (mapInsert m j v) k =
      match mapFind m k with
      | some w => some w
      | none => if j = k then some v else none := by
  unfold mapInsert
  by_cases hj : m.any (fun entry => entry.1 == j)
  · simp only [hj, if_true]
    cases hk : mapFind m k with
    | some w => rfl
    | none =>
      have hne : j ≠ k := by
        intro hjk
        subst hjk
        unfold mapFind at hk
        have hfind : m.find? (fun entry => entry.1 == j) = none :=
          Option.map_eq_none'.mp hk
        rcases List.any_eq_true.mp hj with ⟨e, he, hpe⟩
        exact absurd hpe (List.find?_eq_none.mp hfind e he)
      simp [hne]
  · rw [if_neg hj]
    unfold mapFind
    rw [List.find?_append]
    cases hk : m.find? (fun entry => entry.1 == k) with
    | some e => simp
    | none =>
      by_cases hjk : j = k
      · subst hjk
        simp [List.find?]
      · have hpred : ((j, v).1 == k) = false := by
          simp [hjk]
        simp [List.find?, hpred, hjk]

theorem mapFind_foldl_enumerationStep (filter : DeviceFilter)
    (includeIntegrated includeDetachable : Bool) (l : List Adapter)
    (m : List (Int × Adapter)) (k : Int) :
    mapFind (l.foldl (enumerationStep filter includeIntegrated includeDetachable) m) k =
      match mapFind m k with
      | some w => some w
      | none =>
        (l.filter (fun d =>
          adapterPassesFilter filter includeIntegrated includeDetachable d &&
          d.InstanceLuid == k)).head? := by
  induction l generalizing m with
  | nil => cases hk : mapFind m k <;> simp [List.filter, hk]
  | cons d l ih =>
    rw [List.foldl_cons]
    by_cases hpass : adapterPassesFilter filter includeIntegrated includeDetachable d
    · have hstep : enumerationStep filter includeIntegrated includeDetachable m d =
          mapInsert m d.InstanceLuid d := by
        unfold enumerationStep; rw [if_pos hpass]
      rw [hstep, ih, mapFind_mapInsert]
      cases hk : mapFind m k with
      | some w => simp [List.filter]
      | none =>
        by_cases hl : d.InstanceLuid = k
        · have hbeq : (d.InstanceLuid == k) = true := by simp [hl]
          simp [List.filter, hpass, hbeq, hl]
        · have hbeq : (d.InstanceLuid == k) = false := by simp [hl]
          simp [List.filter, hpass, hbeq, hl]
    · have hb : adapterPassesFilter filter includeIntegrated includeDetachable d = false := by
        simpa using hpass
      have hstep : enumerationStep filter includeIntegrated includeDetachable m d = m := by
        unfold enumerationStep; rw [if_neg hpass]
      rw [hstep, ih]
      cases hk : mapFind m k with
      | some w => rfl
      | none => simp [List.filter, hb]

theorem foldl_lists_eq_foldl_flatten {α β : Type} (g : β → α → β) :
    ∀ (L : List (List α)) (acc : β),
      L.foldl (fun a l => l.foldl g a) acc = (L.flatten).foldl g acc := by
  intro L
  induction L with
  | nil => intro acc; rfl
  | cons l L ih =>
    intro acc
    rw [List.foldl_cons, List.flatten_cons, List.foldl_append, ih]

theorem EnumerateAdapters_eq_foldl_flatten (filter : DeviceFilter)
    (includeIntegrated includeDetachable : Bool) (adapterLists : List (List Adapter)) :
    EnumerateAdapters filter includeIntegrated includeDetachable adapterLists =
      (adapterLists.flatten).foldl (enumerationStep filter includeIntegrated includeDetachable) [] := by
  unfold EnumerateAdapters
  exact foldl_lists_eq_foldl_flatten _ adapterLists []

theorem mem_mapInsert {m : List (Int × Adapter)} {j : Int} {v : Adapter}
    {e : Int × Adapter} (he : e ∈ mapInsert m j v) : e ∈ m ∨ e = (j, v) := by
  unfold mapInsert at he
  by_cases hj : m.any (fun entry => entry.1 == j)
  · rw [if_pos hj] at he; exact Or.inl he
  · rw [if_neg hj] at he
    rcases List.mem_append.mp he with h | h
    · exact Or.inl h
    · simp at h; exact Or.inr h

theorem mem_foldl_enumerationStep (filter : DeviceFilter)
    (includeIntegrated includeDetachable : Bool) :
    ∀ (l : List Adapter) (m : List (Int × Adapter)) (e : Int × Adapter),
      e ∈ l.foldl (enumerationStep filter includeIntegrated includeDetachable) m →
      e ∈ m ∨
        (e.2 ∈ l ∧
         adapterPassesFilter filter includeIntegrated includeDetachable e.2 = true ∧
         e.1 = e.2.InstanceLuid) := by
  intro l
  induction l with
  | nil => intro m e he; exact Or.inl he
  | cons d l ih =>
    intro m e he
    rw [List.foldl_cons] at he
    rcases ih _ e he with h | ⟨hmem, hpass, hkey⟩
    · unfold enumerationStep at h
      by_cases hpass : adapterPassesFilter filter includeIntegrated includeDetachable d
      · rw [if_pos hpass] at h
        rcases mem_mapInsert h with h | h
        · exact Or.inl h
        · right
          subst h
          exact ⟨List.mem_cons_self _ _, hpass, rfl⟩
      · rw [if_neg hpass] at h
        exact Or.inl h
    · exact Or.inr ⟨List.mem_cons_of_mem _ hmem, hpass, hkey⟩

theorem keys_nodup_mapInsert {m : List (Int × Adapter)} {j : Int} {v : Adapter}
    (h : (m.map Prod.fst).Nodup) : ((mapInsert m j v).map Prod.fst).Nodup := by
  unfold mapInsert
  by_cases hj : m.any (fun entry => entry.1 == j)
  · rw [if_pos hj]; exact h
  · rw [if_neg hj, List.map_append]
    rw [List.nodup_append]
    refine ⟨h, List.nodup_singleton _, ?_⟩
    intro x hx hx'
    simp at hx'
    rcases List.mem_map.mp hx with ⟨e, he, hfst⟩
    apply hj
    rw [List.any_eq_true]
    refine ⟨e, he, ?_⟩
    simp [hfst, hx']

theorem keys_nodup_foldl_enumerationStep (filter : DeviceFilter)
    (includeIntegrated includeDetachable : Bool) :
    ∀ (l : List Adapter) (m : List (Int × Adapter)),
      (m.map Prod.fst).Nodup →
      ((l.foldl (enumerationStep filter includeIntegrated includeDetachable) m).map Prod.fst).Nodup := by
  intro l
  induction l with
  | nil => intro m h; exact h
  | cons d l ih =>
    intro m h
    rw [List.foldl_cons]
    apply ih
    unfold enumerationStep
    by_cases hpass : adapterPassesFilter filter includeIntegrated includeDetachable d
    · rw [if_pos hpass]; exact keys_nodup_mapInsert h
    · rw [if_neg hpass]; exact h

end AdapterEnumeration

/-- C3 (counterexample): two surviving candidate adapters share LUID 7 and
differ in their fields; the enumerated set keeps the fields of the
first-processed duplicate, not the last-processed one, refuting
last-write-wins. -/
theorem enumerate_duplicate_luid_keeps_first :
    AdapterEnumeration.EnumerateAdapters .AllDevices true true [[adapterFirst, adapterSecond]] =
      [(7, adapterFirst)] ∧ adapterFirst ≠ adapterSecond := by
  constructor
  · rfl
  · decide

/-- C3 (amended): within one enumeration pass the unique-adapter set holds
exactly one entry per identifier, and looking an identifier up yields the
fields of the first-processed surviving duplicate (first-write-wins: the
associative-container insert does not overwrite an existing key). -/
theorem enumerate_dedup_first_write_wins (filter : DeviceFilter)
    (includeIntegrated includeDetachable : Bool) (adapterLists : List (List Adapter)) (k : Int) :
    ((AdapterEnumeration.EnumerateAdapters filter includeIntegrated includeDetachable adapterLists).map
      Prod.fst).Nodup ∧
    AdapterEnumeration.mapFind
        (AdapterEnumeration.EnumerateAdapters filter includeIntegrated includeDetachable adapterLists) k =
      (adapterLists.flatten.filter (fun d =>
        AdapterEnumeration.adapterPassesFilter filter includeIntegrated includeDetachable d &&
        d.InstanceLuid == k)).head? := by
  rw [AdapterEnumeration.EnumerateAdapters_eq_foldl_flatten]
  constructor
  · exact AdapterEnumeration.keys_nodup_foldl_enumerationStep filter includeIntegrated
      includeDetachable adapterLists.flatten [] (by simp)
  · rw [AdapterEnumeration.mapFind_foldl_enumerationStep]
    have hnil : AdapterEnumeration.mapFind [] k = none := rfl
    rw [hnil]

/-- C6: for `DisplayOnly` no enumerated adapter supports compute, for
`ComputeOnly` none supports display, for `DisplayAndCompute` every
enumerated adapter supports both, and for `AllDevices` the per-adapter
filter ignores the capability flags entirely (it tests only the hardware,
integrated and detachable gates). -/
theorem enumerate_filter_correctness (includeIntegrated includeDetachable : Bool)
    (adapterLists : List (List Adapter)) (k : Int) (a : Adapter) :
    ((k, a) ∈ AdapterEnumeration.EnumerateAdapters .DisplayOnly includeIntegrated includeDetachable
        adapterLists → a.SupportsCompute = false) ∧
    ((k, a) ∈ AdapterEnumeration.EnumerateAdapters .ComputeOnly includeIntegrated includeDetachable
        adapterLists → a.SupportsDisplay = false) ∧
    ((k, a) ∈ AdapterEnumeration.EnumerateAdapters .DisplayAndCompute includeIntegrated includeDetachable
        adapterLists → a.SupportsDisplay = true ∧ a.SupportsCompute = true) ∧
    (∀ details : Adapter,
      AdapterEnumeration.adapterPassesFilter .AllDevices includeIntegrated includeDetachable details =
        (details.IsHardware &&
         !(details.IsIntegrated && !includeIntegrated) &&
         !(details.IsDetachable && !includeDetachable))) := by
  refine ⟨?_, ?_, ?_, ?_⟩
  · intro hmem
    rw [AdapterEnumeration.EnumerateAdapters_eq_foldl_flatten] at hmem
    rcases AdapterEnumeration.mem_foldl_enumerationStep _ _ _ _ _ _ hmem with h | ⟨_, hpass, _⟩
    · simp at h
    · by_cases hc : a.SupportsCompute
      · exfalso
        simp [AdapterEnumeration.adapterPassesFilter, hc] at hpass
      · simpa using hc
  · intro hmem
    rw [AdapterEnumeration.EnumerateAdapters_eq_foldl_flatten] at hmem
    rcases AdapterEnumeration.mem_foldl_enumerationStep _ _ _ _ _ _ hmem with h | ⟨_, hpass, _⟩
    · simp at h
    · by_cases hd : a.SupportsDisplay
      · exfalso
        simp [AdapterEnumeration.adapterPassesFilter, hd] at hpass
      · simpa using hd
  · intro hmem
    rw [AdapterEnumeration.EnumerateAdapters_eq_foldl_flatten] at hmem
    rcases AdapterEnumeration.mem_foldl_enumerationStep _ _ _ _ _ _ hmem with h | ⟨_, hpass, _⟩
    · simp at h
    · constructor
      · by_cases hd : a.SupportsDisplay
        · exact hd
        · exfalso
          have hd' : a.SupportsDisplay = false := by simpa using hd
          simp [AdapterEnumeration.adapterPassesFilter, hd'] at hpass
      · by_cases hc : a.SupportsCompute
        · exact hc
        · exfalso
          have hc' : a.SupportsCompute = false := by simpa using hc
          simp [AdapterEnumeration.adapterPassesFilter, hc'] at hpass
  · intro details
    rcases details with ⟨luid, hwid, hw, integ, det, disp, comp⟩
    cases hw <;> cases integ <;> cases det <;> cases disp <;> cases comp <;> rfl

/-- C10: compute support in the extracted adapter details is derived from
the same D3D12-graphics attribute that also yields display support, so
`SupportsCompute` implies `SupportsDisplay`; consequently an enumeration of
extracted adapters under `ComputeOnly` never contains an adapter with
`SupportsCompute` true. -/
theorem compute_implies_display (raw : DXCoreAdapter) :
    ((AdapterEnumeration.ExtractAdapterDetails raw).SupportsCompute = true →
      (AdapterEnumeration.ExtractAdapterDetails raw).SupportsDisplay = true) ∧
    (∀ (includeIntegrated includeDetachable : Bool) (rawLists : List (List DXCoreAdapter))
       (k : Int) (a : Adapter),
      (k, a) ∈ AdapterEnumeration.EnumerateAdapters .ComputeOnly includeIntegrated includeDetachable
        (rawLists.map (fun l => l.map AdapterEnumeration.ExtractAdapterDetails)) →
      a.SupportsCompute = false) := by
  constructor
  · intro h
    simp [AdapterEnumeration.ExtractAdapterDetails] at h ⊢
    simp [h]
  · intro includeIntegrated includeDetachable rawLists k a hmem
    rw [AdapterEnumeration.EnumerateAdapters_eq_foldl_flatten] at hmem
    rcases AdapterEnumeration.mem_foldl_enumerationStep _ _ _ _ _ _ hmem with h | ⟨hin, hpass, _⟩
    · simp at h
    · have hdisp : a.SupportsDisplay = false := by
        by_cases hd : a.SupportsDisplay
        · exfalso
          simp [AdapterEnumeration.adapterPassesFilter, hd] at hpass
        · simpa using hd
      rcases List.mem_flatten.mp hin with ⟨l, hl, hal⟩
      rcases List.mem_map.mp hl with ⟨rl, _, hrl⟩
      subst hrl
      rcases List.mem_map.mp hal with ⟨r, _, hra⟩
      subst hra
      simp [AdapterEnumeration.ExtractAdapterDetails] at hdisp ⊢
      exact hdisp.2

/-- Witness for C6: concrete enumerations exercising each filter branch. -/
theorem enumerate_filter_correctness_witness :
    displayOnlyAdapter.SupportsCompute = false ∧
    computeOnlyAdapter.SupportsDisplay = false ∧
    (bothAdapter.SupportsDisplay = true ∧ bothAdapter.SupportsCompute = true) ∧
    AdapterEnumeration.adapterPassesFilter .AllDevices false false adapterFirst =
      (adapterFirst.IsHardware &&
       !(adapterFirst.IsIntegrated && !false) &&
       !(adapterFirst.IsDetachable && !false)) := by
  refine ⟨?_, ?_, ?_, ?_⟩
  · exact (enumerate_filter_correctness true true [[displayOnlyAdapter]] 11 displayOnlyAdapter).1
      (by decide)
  · exact (enumerate_filter_correctness true true [[computeOnlyAdapter]] 12 computeOnlyAdapter).2.1
      (by decide)
  · exact (enumerate_filter_correctness true true [[bothAdapter]] 13 bothAdapter).2.2.1
      (by decide)
  · exact (enumerate_filter_correctness false false [] 0 adapterFirst).2.2.2 adapterFirst

/-- Witness for C10: a D3D12-graphics-capable raw adapter extracts with
display support, and a bare raw adapter survives a `ComputeOnly` pass with
compute support false. -/
theorem compute_implies_display_witness :
    (AdapterEnumeration.ExtractAdapterDetails rawComputeCapable).SupportsDisplay = true ∧
    (AdapterEnumeration.ExtractAdapterDetails rawBare).SupportsCompute = false := by
  constructor
  · exact (compute_implies_display rawComputeCapable).1 (by decide)
  · exact (compute_implies_display rawBare).2 true true [[rawBare]] 3
      (AdapterEnumeration.ExtractAdapterDetails rawBare) (by decide)

/-! Lemmas about the correlation loop. -/

theorem mapFind_eq_some_mem {m : List (Int × Adapter)} {k : Int} {a : Adapter}
    (h : AdapterEnumeration.mapFind m k = some a) : (k, a) ∈ m := by
  unfold AdapterEnumeration.mapFind at h
  cases hf : m.find? (fun entry => entry.1 == k) with
  | none => rw [hf] at h; simp at h
  | some e =>
    rw [hf] at h
    simp at h
    have hmem : e ∈ m := List.mem_of_find?_eq_some hf
    have hk : e.1 = k := by
      have hp := List.find?_some hf
      simpa using hp
    have hka : (k, a) = e := by
      rcases e with ⟨e1, e2⟩
      simp at hk h
      simp [hk, h]
    rw [hka]
    exact hmem

theorem mapFind_isSome_key_mem {m : List (Int × Adapter)} {k : Int}
    (h : (AdapterEnumeration.mapFind m k).isSome = true) : k ∈ m.map Prod.fst := by
  unfold AdapterEnumeration.mapFind at h
  cases hf : m.find? (fun entry => entry.1 == k) with
  | none => rw [hf] at h; simp at h
  | some e =>
    have hmem : e ∈ m := List.mem_of_find?_eq_some hf
    have hk : e.1 = k := by
      have hp := List.find?_some hf
      simpa using hp
    rw [← hk]
    exact List.mem_map_of_mem Prod.fst hmem

theorem correlateLoop_subset (adapters : List (Int × Adapter))
    (hwf : AdapterMapKeyConsistent adapters) :
    ∀ (records : List PnpDeviceObject) (acc devices : List Device),
      WmiQuery.correlateLoop adapters acc records = .ok devices →
      ∀ d ∈ devices,
        d ∈ acc ∨
        AdapterEnumeration.mapFind adapters d.DeviceAdapter.InstanceLuid = some d.DeviceAdapter := by
  intro records
  induction records with
  | nil =>
    intro acc devices h d hd
    unfold WmiQuery.correlateLoop at h
    cases h
    exact Or.inl hd
  | cons r rest ih =>
    intro acc devices h d hd
    unfold WmiQuery.correlateLoop at h
    split at h
    · cases h
    · rename_i details hE
      split at h
      · rename_i a hm
        rcases ih _ _ h d hd with hacc | hfind
        · rcases List.mem_append.mp hacc with hacc | hnew
          · exact Or.inl hacc
          · right
            simp at hnew
            subst hnew
            have hmem := mapFind_eq_some_mem hm
            have hkey := hwf _ hmem
            simp only at hkey
            show AdapterEnumeration.mapFind adapters a.InstanceLuid = some a
            rw [hkey]
            exact hm
        · exact Or.inr hfind
      · exact ih _ _ h d hd

theorem correlateLoop_luids (adapters : List (Int × Adapter))
    (hwf : AdapterMapKeyConsistent adapters) :
    ∀ (records : List PnpDeviceObject) (acc devices : List Device),
      WmiQuery.correlateLoop adapters acc records = .ok devices →
      devices.map (fun d => d.DeviceAdapter.InstanceLuid) =
        acc.map (fun d => d.DeviceAdapter.InstanceLuid) ++
          records.filterMap (WmiQuery.matchedLuid adapters) := by
  intro records
  induction records with
  | nil =>
    intro acc devices h
    unfold WmiQuery.correlateLoop at h
    cases h
    simp
  | cons r rest ih =>
    intro acc devices h
    unfold WmiQuery.correlateLoop at h
    split at h
    · cases h
    · rename_i details hE
      split at h
      · rename_i a hm
        have hrec := ih _ _ h
        have hml : WmiQuery.matchedLuid adapters r = some details.DeviceAdapter.InstanceLuid := by
          unfold WmiQuery.matchedLuid
          rw [hE]
          simp [hm]
        have hkey := hwf _ (mapFind_eq_some_mem hm)
        simp only at hkey
        rw [List.filterMap_cons, hml, hrec, List.map_append]
        simp [hkey]
      · rename_i hm
        have hml : WmiQuery.matchedLuid adapters r = none := by
          unfold WmiQuery.matchedLuid
          rw [hE]
          simp [hm]
        rw [List.filterMap_cons, hml]
        exact ih _ _ h

theorem nodup_subset_length_le (l keys : List Int) (hn : l.Nodup)
    (hsub : ∀ x ∈ l, x ∈ keys) : l.length ≤ keys.length := by
  calc l.length = l.toFinset.card := (List.toFinset_card_of_nodup hn).symm
    _ ≤ keys.toFinset.card := by
        apply Finset.card_le_card
        intro x hx
        exact List.mem_toFinset.mpr (hsub x (List.mem_toFinset.mp hx))
    _ ≤ keys.length := List.toFinset_card_le keys

theorem matchedLuid_mem_keys {adapters : List (Int × Adapter)} {r : PnpDeviceObject}
    {l : Int} (h : WmiQuery.matchedLuid adapters r = some l) : l ∈ adapters.map Prod.fst := by
  unfold WmiQuery.matchedLuid at h
  split at h
  · rename_i details hE
    split at h
    · rename_i hs
      cases h
      exact mapFind_isSome_key_mem hs
    · cases h
  · cases h

/-- C7 (counterexample): a key-consistent one-adapter map correlated against
a backend response holding two PnP records for that adapter yields two
devices, exceeding the input adapter set in size. -/
theorem correlate_duplicate_records_exceed_adapters :
    AdapterMapKeyConsistent sampleAdapterMap ∧
    (WmiQuery.GetDevicesForAdapters sampleAdapterMap
        (.ok [samplePnpRecord, samplePnpRecord])).map List.length = .ok 2 ∧
    sampleAdapterMap.length = 1 := by
  refine ⟨?_, ?_, rfl⟩
  · intro e he
    simp [sampleAdapterMap] at he
    rw [he]
    rfl
  · rfl

/-- C7 (amended): for a key-consistent adapter map, every device in a
successful correlation result carries an adapter found in the input map
under its own identifier; and whenever the backend's records match pairwise
distinct adapter identifiers, the correlated list is no longer than the
adapter map. -/
theorem correlate_subset_of_adapters (adapters : List (Int × Adapter))
    (queryResult : Except DeviceDiscoveryError (List PnpDeviceObject)) (devices : List Device)
    (hwf : AdapterMapKeyConsistent adapters)
    (hok : WmiQuery.GetDevicesForAdapters adapters queryResult = .ok devices) :
    (∀ d ∈ devices,
      AdapterEnumeration.mapFind adapters d.DeviceAdapter.InstanceLuid = some d.DeviceAdapter) ∧
    ((WmiQuery.matchedLuids adapters queryResult).Nodup → devices.length ≤ adapters.length) := by
  unfold WmiQuery.GetDevicesForAdapters at hok
  by_cases hempty : adapters.isEmpty
  · rw [if_pos hempty] at hok
    cases hok
    refine ⟨?_, ?_⟩
    · intro d hd
      cases hd
    · intro _
      simp
  · rw [if_neg hempty] at hok
    cases queryResult with
    | error err => cases hok
    | ok records =>
      constructor
      · intro d hd
        rcases correlateLoop_subset adapters hwf records [] devices hok d hd with h | h
        · cases h
        · exact h
      · intro hnodup
        have hmap := correlateLoop_luids adapters hwf records [] devices hok
        simp only [List.map_nil, List.nil_append] at hmap
        have hlen : devices.length = (records.filterMap (WmiQuery.matchedLuid adapters)).length := by
          rw [← hmap, List.length_map]
        have hnodup' : (records.filterMap (WmiQuery.matchedLuid adapters)).Nodup := by
          have : WmiQuery.matchedLuids adapters (.ok records) =
              records.filterMap (WmiQuery.matchedLuid adapters) := rfl
          rw [this] at hnodup
          exact hnodup
        have hsub : ∀ x ∈ records.filterMap (WmiQuery.matchedLuid adapters),
            x ∈ adapters.map Prod.fst := by
          intro x hx
          rcases List.mem_filterMap.mp hx with ⟨r, _, hr⟩
          exact matchedLuid_mem_keys hr
        have := nodup_subset_length_le _ _ hnodup' hsub
        rw [List.length_map] at this
        rw [hlen]
        exact this

/-- Witness for C7 (amended): the sample one-adapter correlation. -/
theorem correlate_subset_of_adapters_witness :
    AdapterEnumeration.mapFind sampleAdapterMap
        sampleCorrelatedDevice.DeviceAdapter.InstanceLuid = some sampleCorrelatedDevice.DeviceAdapter ∧
    [sampleCorrelatedDevice].length ≤ sampleAdapterMap.length := by
  have h := correlate_subset_of_adapters sampleAdapterMap (.ok [samplePnpRecord])
    [sampleCorrelatedDevice]
    (by intro e he; simp [sampleAdapterMap] at he; rw [he]; rfl)
    (by rfl)
  exact ⟨h.1 sampleCorrelatedDevice (by simp), h.2 (by decide)⟩

/-! Lemmas about runtime-file processing. -/

theorem runtimeFileStep_nodup (list : List RuntimeFile) (value : String × List String)
    (h : (list.map (fun f => f.DestinationFilename)).Nodup) :
    ((RegistryQuery.runtimeFileStep list value).map (fun f => f.DestinationFilename)).Nodup := by
  unfold RegistryQuery.runtimeFileStep
  split
  · exact h
  · dsimp only
    split
    · exact h
    · rename_i hdup
      rw [List.map_append, List.nodup_append]
      refine ⟨h, by simp, ?_⟩
      intro x hx hx'
      simp at hx'
      rcases List.mem_map.mp hx with ⟨f, hf, hdest⟩
      apply hdup
      rw [List.any_eq_true]
      exact ⟨f, hf, by simp [hdest, hx']⟩

theorem foldl_runtimeFileStep_nodup (values : List (String × List String)) :
    ∀ (list : List RuntimeFile),
      (list.map (fun f => f.DestinationFilename)).Nodup →
      ((values.foldl RegistryQuery.runtimeFileStep list).map (fun f => f.DestinationFilename)).Nodup := by
  induction values with
  | nil => intro list h; exact h
  | cons v vs ih =>
    intro list h
    rw [List.foldl_cons]
    exact ih _ (runtimeFileStep_nodup list v h)

theorem runtimeFileStep_nil_eq (list : List RuntimeFile) (vname : String) :
    RegistryQuery.runtimeFileStep list (vname, []) = list := rfl

theorem runtimeFileStep_cons_eq (list : List RuntimeFile) (vname s : String) (rest : List String) :
    RegistryQuery.runtimeFileStep list (vname, s :: rest) =
      (if list.any (fun f => f.DestinationFilename ==
            (RuntimeFile.create s
              (match s :: rest with | [_, destination] => destination | _ => "")).DestinationFilename)
       then list
       else list ++ [RuntimeFile.create s
         (match s :: rest with | [_, destination] => destination | _ => "")]) := rfl

theorem constructedRuntimeFiles_cons_nil (vname : String) (vs : List (String × List String)) :
    RegistryQuery.constructedRuntimeFiles ((vname, []) :: vs) =
      RegistryQuery.constructedRuntimeFiles vs := rfl

theorem constructedRuntimeFiles_cons_cons (vname s : String) (rest : List String)
    (vs : List (String × List String)) :
    RegistryQuery.constructedRuntimeFiles ((vname, s :: rest) :: vs) =
      RuntimeFile.create s (match s :: rest with | [_, destination] => destination | _ => "") ::
        RegistryQuery.constructedRuntimeFiles vs := rfl

theorem append_dedup_find (list : List RuntimeFile) (newFile : RuntimeFile)
    (tail : List RuntimeFile) (name : String)
    (hdup : list.any (fun f => f.DestinationFilename == newFile.DestinationFilename) = true) :
    (list ++ tail).find? (fun f => f.DestinationFilename == name) =
      (list ++ newFile :: tail).find? (fun f => f.DestinationFilename == name) := by
  rw [List.find?_append, List.find?_append]
  by_cases hp : (newFile.DestinationFilename == name) = true
  · rcases List.any_eq_true.mp hdup with ⟨f, hf, hfd⟩
    have hpf : (f.DestinationFilename == name) = true := by
      have h1 : f.DestinationFilename = newFile.DestinationFilename := by simpa using hfd
      have h2 : newFile.DestinationFilename = name := by simpa using hp
      simp [h1, h2]
    cases hfind : list.find? (fun f => f.DestinationFilename == name) with
    | some g => simp
    | none => exact absurd hpf (List.find?_eq_none.mp hfind f hf)
  · rw [@List.find?_cons_of_neg RuntimeFile (fun f => f.DestinationFilename == name) newFile tail hp]

theorem foldl_runtimeFileStep_find (name : String) (values : List (String × List String)) :
    ∀ (list : List RuntimeFile),
      (values.foldl RegistryQuery.runtimeFileStep list).find?
          (fun f => f.DestinationFilename == name) =
        (list ++ RegistryQuery.constructedRuntimeFiles values).find?
          (fun f => f.DestinationFilename == name) := by
  induction values with
  | nil =>
    intro list
    simp [RegistryQuery.constructedRuntimeFiles]
  | cons v vs ih =>
    intro list
    rcases v with ⟨vname, vstrs⟩
    rw [List.foldl_cons]
    cases vstrs with
    | nil =>
      rw [runtimeFileStep_nil_eq, constructedRuntimeFiles_cons_nil]
      exact ih list
    | cons s rest =>
      rw [runtimeFileStep_cons_eq, constructedRuntimeFiles_cons_cons]
      by_cases hdup : (list.any (fun f => f.DestinationFilename ==
          (RuntimeFile.create s
            (match s :: rest with | [_, destination] => destination | _ => "")).DestinationFilename)) = true
      · rw [if_pos hdup, ih list]
        exact append_dedup_find list _ _ name hdup
      · rw [if_neg hdup, ih (list ++ [RuntimeFile.create s
          (match s :: rest with | [_, destination] => destination | _ => "")]), List.append_assoc]
        rfl

theorem processRuntimeFiles_nodup (device : Device) (key : String) (isWow64 : Bool)
    (backend : RegistryBackend)
    (h1 : (device.RuntimeFiles.map (fun f => f.DestinationFilename)).Nodup)
    (h2 : (device.RuntimeFilesWow64.map (fun f => f.DestinationFilename)).Nodup) :
    ((RegistryQuery.ProcessRuntimeFiles device key isWow64 backend).RuntimeFiles.map
        (fun f => f.DestinationFilename)).Nodup ∧
    ((RegistryQuery.ProcessRuntimeFiles device key isWow64 backend).RuntimeFilesWow64.map
        (fun f => f.DestinationFilename)).Nodup := by
  unfold RegistryQuery.ProcessRuntimeFiles
  split
  · exact ⟨h1, h2⟩
  · rename_i values hv
    split
    · exact ⟨h1, foldl_runtimeFileStep_nodup values _ h2⟩
    · exact ⟨foldl_runtimeFileStep_nodup values _ h1, h2⟩

theorem FillDriverDetails_eq_of_ok (dev : Device) (b : RegistryBackend) (outputString : String)
    (ho : b.openAdapterError = none) (hq : b.driverStoreQuery = .ok outputString) :
    RegistryQuery.FillDriverDetails dev b =
      (if containsSubstr (RegistryQuery.expandSystemRoot outputString b.systemRoot)
          "HostDriverStore"
       then .ok { dev with
         DriverStorePath := RegistryQuery.expandSystemRoot outputString b.systemRoot }
       else .ok (RegistryQuery.ProcessRuntimeFiles
         (RegistryQuery.ProcessRuntimeFiles
           (RegistryQuery.ProcessRuntimeFiles
             (RegistryQuery.ProcessRuntimeFiles
               { dev with DriverStorePath :=
                   RegistryQuery.expandSystemRoot outputString b.systemRoot }
               "CopyToVmOverwrite" false b)
             "CopyToVmWhenNewer" false b)
           "CopyToVmOverwriteWow64" true b)
         "CopyToVmWhenNewerWow64" true b)) := by
  unfold RegistryQuery.FillDriverDetails
  rw [ho]
  rw [hq]

/-- C8: within one device and one runtime-file list, destination filenames
stay pairwise distinct: one sub-key pass preserves distinctness, a lookup by
destination name after the pass finds the first-processed entry of the
existing list followed by the sub-key's constructed entries (so a later
colliding entry is dropped and the first is kept unchanged), and a full
driver-metadata resolution starting from empty lists produces two lists
with pairwise distinct destination names. -/
theorem runtime_file_destination_dedup (device : Device) (key : String) (isWow64 : Bool)
    (backend : RegistryBackend) :
    (((if isWow64 then device.RuntimeFilesWow64 else device.RuntimeFiles).map
        (fun f => f.DestinationFilename)).Nodup →
      ((if isWow64
        then (RegistryQuery.ProcessRuntimeFiles device key isWow64 backend).RuntimeFilesWow64
        else (RegistryQuery.ProcessRuntimeFiles device key isWow64 backend).RuntimeFiles).map
        (fun f => f.DestinationFilename)).Nodup) ∧
    (∀ values name, backend.subkeyValues key = .ok values →
      (if isWow64
       then (RegistryQuery.ProcessRuntimeFiles device key isWow64 backend).RuntimeFilesWow64
       else (RegistryQuery.ProcessRuntimeFiles device key isWow64 backend).RuntimeFiles).find?
          (fun f => f.DestinationFilename == name) =
        ((if isWow64 then device.RuntimeFilesWow64 else device.RuntimeFiles) ++
          RegistryQuery.constructedRuntimeFiles values).find?
          (fun f => f.DestinationFilename == name)) ∧
    (∀ (dev : Device) (b : RegistryBackend) (enriched : Device),
      dev.RuntimeFiles = [] → dev.RuntimeFilesWow64 = [] →
      RegistryQuery.FillDriverDetails dev b = .ok enriched →
      (enriched.RuntimeFiles.map (fun f => f.DestinationFilename)).Nodup ∧
      (enriched.RuntimeFilesWow64.map (fun f => f.DestinationFilename)).Nodup) := by
  refine ⟨?_, ?_, ?_⟩
  · intro h
    cases isWow64
    · simp only [Bool.false_eq_true, if_false] at h ⊢
      unfold RegistryQuery.ProcessRuntimeFiles
      split
      · exact h
      · rename_i values hv
        exact foldl_runtimeFileStep_nodup values _ h
    · simp only [if_true] at h ⊢
      unfold RegistryQuery.ProcessRuntimeFiles
      split
      · exact h
      · rename_i values hv
        exact foldl_runtimeFileStep_nodup values _ h
  · intro values name hv
    cases isWow64
    · simp only [Bool.false_eq_true, if_false]
      unfold RegistryQuery.ProcessRuntimeFiles
      rw [hv]
      exact foldl_runtimeFileStep_find name values device.RuntimeFiles
    · simp only [if_true]
      unfold RegistryQuery.ProcessRuntimeFiles
      rw [hv]
      exact foldl_runtimeFileStep_find name values device.RuntimeFilesWow64
  · intro dev b enriched h1 h2 hok
    cases ho : b.openAdapterError with
    | some err =>
      unfold RegistryQuery.FillDriverDetails at hok
      rw [ho] at hok
      simp at hok
    | none =>
      cases hq : b.driverStoreQuery with
      | error err =>
        unfold RegistryQuery.FillDriverDetails at hok
        rw [ho, hq] at hok
        simp at hok
      | ok outputString =>
        rw [FillDriverDetails_eq_of_ok dev b outputString ho hq] at hok
        split at hok
        · cases hok
          exact ⟨by simp [h1], by simp [h2]⟩
        · cases hok
          have base1 : (({ dev with DriverStorePath :=
              RegistryQuery.expandSystemRoot outputString b.systemRoot } : Device).RuntimeFiles.map
                (fun f => f.DestinationFilename)).Nodup := by
            simp [h1]
          have base2 : (({ dev with DriverStorePath :=
              RegistryQuery.expandSystemRoot outputString b.systemRoot } : Device).RuntimeFilesWow64.map
                (fun f => f.DestinationFilename)).Nodup := by
            simp [h2]
          have s1 := processRuntimeFiles_nodup _ "CopyToVmOverwrite" false b base1 base2
          have s2 := processRuntimeFiles_nodup _ "CopyToVmWhenNewer" false b s1.1 s1.2
          have s3 := processRuntimeFiles_nodup _ "CopyToVmOverwriteWow64" true b s2.1 s2.2
          have s4 := processRuntimeFiles_nodup _ "CopyToVmWhenNewerWow64" true b s3.1 s3.2
          exact s4

/-- Witness for C8: the colliding sample sub-key values, processed from an
empty list, and a full concrete driver-metadata resolution. -/
theorem runtime_file_destination_dedup_witness :
    ((RegistryQuery.ProcessRuntimeFiles Device.init "CopyToVmOverwrite" false
        collideBackend).RuntimeFiles.map (fun f => f.DestinationFilename)).Nodup ∧
    ((RegistryQuery.ProcessRuntimeFiles Device.init "CopyToVmOverwrite" false
        collideBackend).RuntimeFiles.find? (fun f => f.DestinationFilename == "common.dll") =
      (Device.init.RuntimeFiles ++
        RegistryQuery.constructedRuntimeFiles collideValues).find?
        (fun f => f.DestinationFilename == "common.dll")) ∧
    (({ Device.init with
          DriverStorePath := "C:\\DriverStore\\nv"
          RuntimeFiles := [{ SourcePath := "x\\common.dll", DestinationFilename := "common.dll" }]
        } : Device).RuntimeFiles.map (fun f => f.DestinationFilename)).Nodup ∧
    (({ Device.init with
          DriverStorePath := "C:\\DriverStore\\nv"
          RuntimeFiles := [{ SourcePath := "x\\common.dll", DestinationFilename := "common.dll" }]
        } : Device).RuntimeFilesWow64.map (fun f => f.DestinationFilename)).Nodup := by
  have h := runtime_file_destination_dedup Device.init "CopyToVmOverwrite" false collideBackend
  have h3 := h.2.2 Device.init collideBackend
    { Device.init with
        DriverStorePath := "C:\\DriverStore\\nv"
        RuntimeFiles := [{ SourcePath := "x\\common.dll", DestinationFilename := "common.dll" }] }
    rfl rfl (by rfl)
  exact ⟨h.1 (by decide), h.2.1 collideValues "common.dll" rfl, h3.1, h3.2⟩

/-- C9: a failure enumerating one runtime-file sub-key is absorbed locally:
resolving against a backend whose sub-key fails produces exactly the same
device record as resolving against one whose sub-key delivers zero values
(other sub-keys unaffected), and resolution yields a device record exactly
when opening the adapter and the driver-store path query succeed. -/
theorem driver_details_subkey_failure_isolated (device : Device) (key : String)
    (e : DeviceDiscoveryError) (b1 b2 : RegistryBackend)
    (hopen : b1.openAdapterError = b2.openAdapterError)
    (hquery : b1.driverStoreQuery = b2.driverStoreQuery)
    (hsys : b1.systemRoot = b2.systemRoot)
    (hsub : ∀ k, k ≠ key → b1.subkeyValues k = b2.subkeyValues k)
    (hfail : b1.subkeyValues key = .error e)
    (hempty : b2.subkeyValues key = .ok []) :
    RegistryQuery.FillDriverDetails device b1 = RegistryQuery.FillDriverDetails device b2 ∧
    (∀ (dev : Device) (b : RegistryBackend),
      (RegistryQuery.FillDriverDetails dev b).isOk =
        (b.openAdapterError.isNone && b.driverStoreQuery.isOk)) := by
  constructor
  · have hproc : ∀ (dev : Device) (k : String) (w : Bool),
        RegistryQuery.ProcessRuntimeFiles dev k w b1 =
          RegistryQuery.ProcessRuntimeFiles dev k w b2 := by
      intro dev k w
      by_cases hk : k = key
      · subst hk
        unfold RegistryQuery.ProcessRuntimeFiles
        rw [hfail, hempty]
        cases w <;> rfl
      · unfold RegistryQuery.ProcessRuntimeFiles
        rw [hsub k hk]
    cases ho : b1.openAdapterError with
    | some err =>
      have ho2 : b2.openAdapterError = some err := by rw [← hopen]; exact ho
      unfold RegistryQuery.FillDriverDetails
      rw [ho, ho2]
    | none =>
      have ho2 : b2.openAdapterError = none := by rw [← hopen]; exact ho
      cases hq : b1.driverStoreQuery with
      | error err =>
        have hq2 : b2.driverStoreQuery = .error err := by rw [← hquery]; exact hq
        unfold RegistryQuery.FillDriverDetails
        rw [ho, ho2, hq, hq2]
      | ok outputString =>
        have hq2 : b2.driverStoreQuery = .ok outputString := by rw [← hquery]; exact hq
        rw [FillDriverDetails_eq_of_ok device b1 outputString ho hq,
          FillDriverDetails_eq_of_ok device b2 outputString ho2 hq2, hsys]
        simp only [hproc]
  · intro dev b
    cases ho : b.openAdapterError with
    | some err =>
      unfold RegistryQuery.FillDriverDetails
      rw [ho]
      rfl
    | none =>
      cases hq : b.driverStoreQuery with
      | error err =>
        unfold RegistryQuery.FillDriverDetails
        rw [ho, hq]
        rfl
      | ok outputString =>
        rw [FillDriverDetails_eq_of_ok dev b outputString ho hq]
        split <;> rfl

/-- Witness for C9: the concrete backend pair differing only in the
`CopyToVmWhenNewer` sub-key (failing in one, empty in the other). -/
theorem driver_details_subkey_failure_isolated_witness :
    RegistryQuery.FillDriverDetails Device.init subkeyFailBackend =
      RegistryQuery.FillDriverDetails Device.init subkeyEmptyBackend ∧
    (RegistryQuery.FillDriverDetails Device.init subkeyFailBackend).isOk =
      (subkeyFailBackend.openAdapterError.isNone && subkeyFailBackend.driverStoreQuery.isOk) := by
  have h := driver_details_subkey_failure_isolated Device.init "CopyToVmWhenNewer"
    (createError "RegEnumValueW failed") subkeyFailBackend subkeyEmptyBackend rfl rfl rfl
    (by
      intro k hk
      have hbeq : (k == "CopyToVmWhenNewer") = false := by
        simp [hk]
      show (if k == "CopyToVmWhenNewer"
            then Except.error (createError "RegEnumValueW failed")
            else Except.ok [("A", ["f.dll"])]) =
        (if k == "CopyToVmWhenNewer"
         then Except.ok []
         else Except.ok [("A", ["f.dll"])])
      rw [hbeq]
      rfl)
    rfl rfl
  exact ⟨h.1, h.2 Device.init subkeyFailBackend⟩

/-! Lemmas about the discovery session. -/

theorem Pretty_ne_empty (e : DeviceDiscoveryError) : e.Pretty ≠ "" := by
  unfold DeviceDiscoveryError.Pretty
  intro h
  have hlen := congrArg String.length h
  simp [String.length_append] at hlen
  have hbr : (" [").length = 2 := rfl
  omega

theorem applyDeviceProperty_no_runtimeError (d : Device) (p : String × Option Variant)
    (what : String) : WmiQuery.applyDeviceProperty d p ≠ .error (.runtimeError what) := by
  unfold WmiQuery.applyDeviceProperty
  split
  · intro h; cases h
  · split
    · split <;> intro h <;> cases h
    · split
      · split <;> intro h <;> cases h
      · split
        · split <;> (try split) <;> intro h <;> cases h
        · intro h; cases h

theorem foldlM_applyDeviceProperty_no_runtimeError (what : String) :
    ∀ (props : List (String × Option Variant)) (acc : Device),
      props.foldlM WmiQuery.applyDeviceProperty acc ≠
        .error (.runtimeError what) := by
  intro props
  induction props with
  | nil => intro acc h; cases h
  | cons p rest ih =>
    intro acc h
    rw [List.foldlM_cons] at h
    cases hp : WmiQuery.applyDeviceProperty acc p with
    | error exn =>
      rw [hp] at h
      have hred : ((Except.error exn : Except CppException Device) >>=
          fun d => rest.foldlM WmiQuery.applyDeviceProperty d) = Except.error exn := rfl
      rw [hred] at h
      have hexn : exn = .runtimeError what := by injection h
      rw [hexn] at hp
      exact applyDeviceProperty_no_runtimeError acc p what hp
    | ok d =>
      rw [hp] at h
      have hred : ((Except.ok d : Except CppException Device) >>=
          fun d => rest.foldlM WmiQuery.applyDeviceProperty d) =
            rest.foldlM WmiQuery.applyDeviceProperty d := rfl
      rw [hred] at h
      exact ih d h

theorem ExtractDeviceDetails_no_runtimeError (record : PnpDeviceObject) (what : String) :
    WmiQuery.ExtractDeviceDetails record ≠ .error (.runtimeError what) := by
  exact foldlM_applyDeviceProperty_no_runtimeError what record.properties _

theorem correlateLoop_no_runtimeError (adapters : List (Int × Adapter)) (what : String) :
    ∀ (records : List PnpDeviceObject) (acc : List Device),
      WmiQuery.correlateLoop adapters acc records ≠ .error (.runtimeError what) := by
  intro records
  induction records with
  | nil =>
    intro acc h
    cases h
  | cons r rest ih =>
    intro acc h
    unfold WmiQuery.correlateLoop at h
    split at h
    · rename_i exn hE
      cases h
      exact ExtractDeviceDetails_no_runtimeError r what hE
    · rename_i details hE
      split at h
      · exact ih _ h
      · exact ih _ h

theorem GetDevicesForAdapters_no_runtimeError (adapters : List (Int × Adapter))
    (queryResult : Except DeviceDiscoveryError (List PnpDeviceObject)) (what : String) :
    WmiQuery.GetDevicesForAdapters adapters queryResult ≠ .error (.runtimeError what) := by
  unfold WmiQuery.GetDevicesForAdapters
  split
  · intro h; cases h
  · split
    · intro h; cases h
    · exact correlateLoop_no_runtimeError adapters what _ []

theorem DiscoverDevices_ctor_fail (s : DiscoverySession) (filter : DeviceFilter)
    (includeIntegrated includeDetachable : Bool) (b : DiscoverBackend)
    (err : DeviceDiscoveryError) (hs : s.helpers = none)
    (hc : b.constructionError = some err) :
    DiscoverDevices s filter includeIntegrated includeDetachable b =
      ({ s with lastError := err.Pretty }, .failure) := by
  unfold DiscoverDevices
  rw [hs, hc]

theorem DiscoverDevices_proceeds (s : DiscoverySession) (filter : DeviceFilter)
    (includeIntegrated includeDetachable : Bool) (b : DiscoverBackend)
    (hgo : s.helpers.isSome = true ∨ b.constructionError = none) :
    DiscoverDevices s filter includeIntegrated includeDetachable b =
      (match b.enumOutcome with
       | .threw err stateLeft =>
         ({ s with helpers := some stateLeft, lastError := err.Pretty }, .failure)
       | .created lists =>
         discoverWithCorrelation s lists
           (sessionUniqueAdapters filter includeIntegrated includeDetachable lists)
           b.registryBackends
           (WmiQuery.GetDevicesForAdapters
             (sessionUniqueAdapters filter includeIntegrated includeDetachable lists)
             b.pnpQueryResult)) := by
  rcases hgo with hgo | hgo
  · cases hs : s.helpers with
    | none => rw [hs] at hgo; simp at hgo
    | some es =>
      unfold DiscoverDevices
      rw [hs]
  · unfold DiscoverDevices
    rw [hgo]
    cases hs : s.helpers <;> rfl

theorem DiscoverDevices_threw (s : DiscoverySession) (filter : DeviceFilter)
    (includeIntegrated includeDetachable : Bool) (b : DiscoverBackend)
    (err : DeviceDiscoveryError) (stateLeft : EnumerationState)
    (hgo : s.helpers.isSome = true ∨ b.constructionError = none)
    (hEo : b.enumOutcome = .threw err stateLeft) :
    DiscoverDevices s filter includeIntegrated includeDetachable b =
      ({ s with helpers := some stateLeft, lastError := err.Pretty }, .failure) := by
  rw [DiscoverDevices_proceeds s filter includeIntegrated includeDetachable b hgo, hEo]

theorem DiscoverDevices_created (s : DiscoverySession) (filter : DeviceFilter)
    (includeIntegrated includeDetachable : Bool) (b : DiscoverBackend)
    (lists : List AdapterListHandle)
    (hgo : s.helpers.isSome = true ∨ b.constructionError = none)
    (hEo : b.enumOutcome = .created lists) :
    DiscoverDevices s filter includeIntegrated includeDetachable b =
      discoverWithCorrelation s lists
        (sessionUniqueAdapters filter includeIntegrated includeDetachable lists)
        b.registryBackends
        (WmiQuery.GetDevicesForAdapters
          (sessionUniqueAdapters filter includeIntegrated includeDetachable lists)
          b.pnpQueryResult) := by
  rw [DiscoverDevices_proceeds s filter includeIntegrated includeDetachable b hgo, hEo]

theorem discoverWithCorrelation_disc_error (s : DiscoverySession)
    (lists : List AdapterListHandle) (uniq : List (Int × Adapter))
    (rb : Nat → RegistryBackend) (err : DeviceDiscoveryError) :
    discoverWithCorrelation s lists uniq rb (.error (.discoveryError err)) =
      ({ s with helpers := some ⟨lists, uniq⟩, lastError := err.Pretty }, .failure) := rfl

theorem discoverWithCorrelation_runtime_error (s : DiscoverySession)
    (lists : List AdapterListHandle) (uniq : List (Int × Adapter))
    (rb : Nat → RegistryBackend) (what : String) :
    discoverWithCorrelation s lists uniq rb (.error (.runtimeError what)) =
      ({ s with helpers := some ⟨lists, uniq⟩, lastError := what }, .failure) := rfl

theorem discoverWithCorrelation_invalidArgument (s : DiscoverySession)
    (lists : List AdapterListHandle) (uniq : List (Int × Adapter))
    (rb : Nat → RegistryBackend) (what : String) :
    discoverWithCorrelation s lists uniq rb (.error (.invalidArgument what)) =
      ({ s with helpers := some ⟨lists, uniq⟩ },
        .uncaughtException (.invalidArgument what)) := rfl

theorem discoverWithCorrelation_outOfRange (s : DiscoverySession)
    (lists : List AdapterListHandle) (uniq : List (Int × Adapter))
    (rb : Nat → RegistryBackend) (what : String) :
    discoverWithCorrelation s lists uniq rb (.error (.outOfRangeError what)) =
      ({ s with helpers := some ⟨lists, uniq⟩ },
        .uncaughtException (.outOfRangeError what)) := rfl

theorem discoverWithCorrelation_fill_error (s : DiscoverySession)
    (lists : List AdapterListHandle) (uniq : List (Int × Adapter))
    (rb : Nat → RegistryBackend) (correlated : List Device)
    (err : DeviceDiscoveryError) (devicesAtError : List Device)
    (hF : fillAllDriverDetails rb correlated 0 = .error (err, devicesAtError)) :
    discoverWithCorrelation s lists uniq rb (.ok correlated) =
      ({ s with
          helpers := some ⟨lists, uniq⟩
          devices := devicesAtError
          lastError := err.Pretty }, .failure) := by
  unfold discoverWithCorrelation
  dsimp only
  rw [hF]

theorem discoverWithCorrelation_fill_ok (s : DiscoverySession)
    (lists : List AdapterListHandle) (uniq : List (Int × Adapter))
    (rb : Nat → RegistryBackend) (correlated enriched : List Device)
    (hF : fillAllDriverDetails rb correlated 0 = .ok enriched) :
    discoverWithCorrelation s lists uniq rb (.ok correlated) =
      ({ s with
          helpers := some ⟨lists, uniq⟩
          devices := enriched
          lastError := "" }, .success) := by
  unfold discoverWithCorrelation
  dsimp only
  rw [hF]

theorem discoverWithCorrelation_helpers (s : DiscoverySession)
    (lists : List AdapterListHandle) (uniq : List (Int × Adapter))
    (rb : Nat → RegistryBackend) (c : Except CppException (List Device)) :
    (discoverWithCorrelation s lists uniq rb c).1.helpers = some ⟨lists, uniq⟩ := by
  unfold discoverWithCorrelation
  split
  · rfl
  · rfl
  · rfl
  · split
    · rfl
    · rfl

/-- C1 (amended): a Discover call that fails during helper construction,
adapter enumeration, or PnP correlation leaves the session's device list
exactly as before and reports failure with a non-empty last-error string; a
call that fails during per-device driver-metadata resolution also reports
failure with a non-empty last-error string, but the device list has already
been replaced by the newly correlated list, with the devices before the
failure point enriched; on success the device list is fully replaced by the
enriched list and last-error is cleared to empty. -/
theorem discover_error_handling (s : DiscoverySession) (filter : DeviceFilter)
    (includeIntegrated includeDetachable : Bool) (b : DiscoverBackend) :
    ((DiscoverDevices s filter includeIntegrated includeDetachable b).2 = .failure →
      (DiscoverDevices s filter includeIntegrated includeDetachable b).1.lastError ≠ "") ∧
    ((DiscoverDevices s filter includeIntegrated includeDetachable b).2 = .success →
      (DiscoverDevices s filter includeIntegrated includeDetachable b).1.lastError = "") ∧
    (∀ err stateLeft, b.enumOutcome = .threw err stateLeft →
      (DiscoverDevices s filter includeIntegrated includeDetachable b).1.devices = s.devices) ∧
    (∀ err, s.helpers = none → b.constructionError = some err →
      (DiscoverDevices s filter includeIntegrated includeDetachable b).1.devices = s.devices) ∧
    (∀ lists exn, b.enumOutcome = .created lists →
      WmiQuery.GetDevicesForAdapters
          (sessionUniqueAdapters filter includeIntegrated includeDetachable lists)
          b.pnpQueryResult = .error exn →
      (DiscoverDevices s filter includeIntegrated includeDetachable b).1.devices = s.devices) ∧
    (∀ lists correlated err devicesAtError,
      (s.helpers.isSome = true ∨ b.constructionError = none) →
      b.enumOutcome = .created lists →
      WmiQuery.GetDevicesForAdapters
          (sessionUniqueAdapters filter includeIntegrated includeDetachable lists)
          b.pnpQueryResult = .ok correlated →
      fillAllDriverDetails b.registryBackends correlated 0 = .error (err, devicesAtError) →
      (DiscoverDevices s filter includeIntegrated includeDetachable b).1.devices =
          devicesAtError ∧
        (DiscoverDevices s filter includeIntegrated includeDetachable b).2 = .failure) ∧
    (∀ lists correlated enriched,
      (s.helpers.isSome = true ∨ b.constructionError = none) →
      b.enumOutcome = .created lists →
      WmiQuery.GetDevicesForAdapters
          (sessionUniqueAdapters filter includeIntegrated includeDetachable lists)
          b.pnpQueryResult = .ok correlated →
      fillAllDriverDetails b.registryBackends correlated 0 = .ok enriched →
      (DiscoverDevices s filter includeIntegrated includeDetachable b).1.devices = enriched ∧
        (DiscoverDevices s filter includeIntegrated includeDetachable b).2 = .success) := by
  have hcase : ∀ {P : Prop},
      (∀ cerr, s.helpers = none → b.constructionError = some cerr → P) →
      ((s.helpers.isSome = true ∨ b.constructionError = none) → P) → P := by
    intro P h1 h2
    cases hs : s.helpers with
    | some es => exact h2 (Or.inl (by rw [hs]; rfl))
    | none =>
      cases hc : b.constructionError with
      | none => exact h2 (Or.inr hc)
      | some cerr => exact h1 cerr hs hc
  refine ⟨?_, ?_, ?_, ?_, ?_, ?_, ?_⟩
  · intro hout
    refine hcase (fun cerr hs hc => ?_) (fun hgo => ?_)
    · rw [DiscoverDevices_ctor_fail s filter includeIntegrated includeDetachable b cerr hs hc]
      exact Pretty_ne_empty cerr
    · cases hEo : b.enumOutcome with
      | threw err stateLeft =>
        rw [DiscoverDevices_threw s filter includeIntegrated includeDetachable b err stateLeft
          hgo hEo]
        exact Pretty_ne_empty err
      | created lists =>
        rw [DiscoverDevices_created s filter includeIntegrated includeDetachable b lists
          hgo hEo] at hout ⊢
        rcases hW : WmiQuery.GetDevicesForAdapters
            (sessionUniqueAdapters filter includeIntegrated includeDetachable lists)
            b.pnpQueryResult with exn | correlated
        · rw [hW] at hout
          cases exn with
          | discoveryError err =>
            rw [discoverWithCorrelation_disc_error]
            exact Pretty_ne_empty err
          | runtimeError what =>
            exact absurd hW (GetDevicesForAdapters_no_runtimeError _ _ what)
          | invalidArgument what =>
            rw [discoverWithCorrelation_invalidArgument] at hout
            cases hout
          | outOfRangeError what =>
            rw [discoverWithCorrelation_outOfRange] at hout
            cases hout
        · rw [hW] at hout
          rcases hF : fillAllDriverDetails b.registryBackends correlated 0 with
            ⟨err, devicesAtError⟩ | enriched
          · rw [discoverWithCorrelation_fill_error s lists _ _ correlated err devicesAtError hF]
            exact Pretty_ne_empty err
          · rw [discoverWithCorrelation_fill_ok s lists _ _ correlated enriched hF] at hout
            cases hout
  · intro hout
    refine hcase (fun cerr hs hc => ?_) (fun hgo => ?_)
    · rw [DiscoverDevices_ctor_fail s filter includeIntegrated includeDetachable b cerr
        hs hc] at hout
      cases hout
    · cases hEo : b.enumOutcome with
      | threw err stateLeft =>
        rw [DiscoverDevices_threw s filter includeIntegrated includeDetachable b err stateLeft
          hgo hEo] at hout
        cases hout
      | created lists =>
        rw [DiscoverDevices_created s filter includeIntegrated includeDetachable b lists
          hgo hEo] at hout ⊢
        rcases hW : WmiQuery.GetDevicesForAdapters
            (sessionUniqueAdapters filter includeIntegrated includeDetachable lists)
            b.pnpQueryResult with exn | correlated
        · rw [hW] at hout
          cases exn with
          | discoveryError err =>
            rw [discoverWithCorrelation_disc_error] at hout
            cases hout
          | runtimeError what =>
            exact absurd hW (GetDevicesForAdapters_no_runtimeError _ _ what)
          | invalidArgument what =>
            rw [discoverWithCorrelation_invalidArgument] at hout
            cases hout
          | outOfRangeError what =>
            rw [discoverWithCorrelation_outOfRange] at hout
            cases hout
        · rw [hW] at hout
          rcases hF : fillAllDriverDetails b.registryBackends correlated 0 with
            ⟨err, devicesAtError⟩ | enriched
          · rw [discoverWithCorrelation_fill_error s lists _ _ correlated err devicesAtError
              hF] at hout
            cases hout
          · rw [discoverWithCorrelation_fill_ok s lists _ _ correlated enriched hF]
  · intro err stateLeft hEo
    refine hcase (fun cerr hs hc => ?_) (fun hgo => ?_)
    · rw [DiscoverDevices_ctor_fail s filter includeIntegrated includeDetachable b cerr hs hc]
    · rw [DiscoverDevices_threw s filter includeIntegrated includeDetachable b err stateLeft
        hgo hEo]
  · intro err hs hc
    rw [DiscoverDevices_ctor_fail s filter includeIntegrated includeDetachable b err hs hc]
  · intro lists exn hEo hW
    refine hcase (fun cerr hs hc => ?_) (fun hgo => ?_)
    · rw [DiscoverDevices_ctor_fail s filter includeIntegrated includeDetachable b cerr hs hc]
    · rw [DiscoverDevices_created s filter includeIntegrated includeDetachable b lists
        hgo hEo, hW]
      cases exn with
      | discoveryError err => rw [discoverWithCorrelation_disc_error]
      | runtimeError what => exact absurd hW (GetDevicesForAdapters_no_runtimeError _ _ what)
      | invalidArgument what => rw [discoverWithCorrelation_invalidArgument]
      | outOfRangeError what => rw [discoverWithCorrelation_outOfRange]
  · intro lists correlated err devicesAtError hgo hEo hW hF
    rw [DiscoverDevices_created s filter includeIntegrated includeDetachable b lists hgo hEo,
      hW, discoverWithCorrelation_fill_error s lists _ _ correlated err devicesAtError hF]
    exact ⟨rfl, rfl⟩
  · intro lists correlated enriched hgo hEo hW hF
    rw [DiscoverDevices_created s filter includeIntegrated includeDetachable b lists hgo hEo,
      hW, discoverWithCorrelation_fill_ok s lists _ _ correlated enriched hF]
    exact ⟨rfl, rfl⟩

/-- C1 (counterexample): a session holding a device list from an earlier
successful discovery runs a Discover call that fails during driver-metadata
resolution; the call reports failure, yet the device list has been replaced
by the newly correlated list instead of being left as it was. -/
theorem discover_registry_failure_overwrites_devices :
    (DiscoverDevices oldSession .AllDevices true true registryFailBackend).2 = .failure ∧
    (DiscoverDevices oldSession .AllDevices true true registryFailBackend).1.devices ≠
      oldSession.devices := by
  constructor
  · rfl
  · decide

/-- Witness for C1 (amended): concrete runs exercising every branch —
construction, enumeration and correlation failures leave the empty fresh
device list unchanged; a registry failure leaves the correlated list; a
fully successful run installs the enriched list and clears the error. -/
theorem discover_error_handling_witness :
    (DiscoverDevices DiscoverySession.fresh .AllDevices true true
        registryFailBackend).1.lastError ≠ "" ∧
    (DiscoverDevices DiscoverySession.fresh .AllDevices true true
        successBackend).1.lastError = "" ∧
    (DiscoverDevices DiscoverySession.fresh .AllDevices true true
        enumFailBackend).1.devices = DiscoverySession.fresh.devices ∧
    (DiscoverDevices DiscoverySession.fresh .AllDevices true true
        { successBackend with
            constructionError := some (createError "CoCreateInstance failed") }).1.devices =
      DiscoverySession.fresh.devices ∧
    (DiscoverDevices DiscoverySession.fresh .AllDevices true true
        wmiFailBackend).1.devices = DiscoverySession.fresh.devices ∧
    ((DiscoverDevices DiscoverySession.fresh .AllDevices true true
        registryFailBackend).1.devices = [sampleCorrelatedDevice] ∧
      (DiscoverDevices DiscoverySession.fresh .AllDevices true true
        registryFailBackend).2 = .failure) ∧
    ((DiscoverDevices DiscoverySession.fresh .AllDevices true true
        successBackend).1.devices = [sampleEnrichedDevice] ∧
      (DiscoverDevices DiscoverySession.fresh .AllDevices true true
        successBackend).2 = .success) := by
  refine ⟨?_, ?_, ?_, ?_, ?_, ?_, ?_⟩
  · exact (discover_error_handling DiscoverySession.fresh .AllDevices true true
      registryFailBackend).1 (by rfl)
  · exact (discover_error_handling DiscoverySession.fresh .AllDevices true true
      successBackend).2.1 (by rfl)
  · exact (discover_error_handling DiscoverySession.fresh .AllDevices true true
      enumFailBackend).2.2.1 (createError "CreateAdapterList failed") ⟨[], []⟩ rfl
  · exact (discover_error_handling DiscoverySession.fresh .AllDevices true true
      { successBackend with
          constructionError := some (createError "CoCreateInstance failed") }).2.2.2.1
      (createError "CoCreateInstance failed") rfl rfl
  · exact (discover_error_handling DiscoverySession.fresh .AllDevices true true
      wmiFailBackend).2.2.2.2.1 goodLists
      (.discoveryError ((createError "WMI connection lost").Wrap "WQL query execution failed"))
      rfl (by rfl)
  · exact (discover_error_handling DiscoverySession.fresh .AllDevices true true
      registryFailBackend).2.2.2.2.2.1 goodLists [sampleCorrelatedDevice]
      ((createError "unknown adapter").Wrap
        ("D3DKMTOpenAdapterFromLuid failed to open adapter with LUID " ++ toString (5 : Int)))
      [sampleCorrelatedDevice] (Or.inr rfl) rfl (by rfl) (by rfl)
  · exact (discover_error_handling DiscoverySession.fresh .AllDevices true true
      successBackend).2.2.2.2.2.2 goodLists [sampleCorrelatedDevice] [sampleEnrichedDevice]
      (Or.inr rfl) rfl (by rfl) (by rfl)

/-- C2: a PnP adapter-LUID property delivered as the string `GPU-LUID` makes
`std::stoll` throw `std::invalid_argument`, which matches neither catch
clause of `DiscoverDevices` (they catch only `DeviceDiscoveryError` and
`std::runtime_error`), so the exception propagates across the external
interface instead of being converted into a sentinel return. -/
theorem discover_unparseable_luid_string_escapes :
    (DiscoverDevices DiscoverySession.fresh .AllDevices true true badLuidBackend).2 =
      .uncaughtException (.invalidArgument "stoll") ∧
    CppException.caughtByDiscover (.invalidArgument "stoll") = false ∧
    stoll "GPU-LUID" = .invalidArgument := by
  exact ⟨rfl, rfl, rfl⟩

/-- C4 (counterexample): a session whose only Discover call was attempted
and failed (during driver-metadata resolution) does not report the failure
sentinel: the helper objects exist, so `GetNumDevices` returns the size of
the partially-processed list and `GetDeviceID` returns device data. -/
theorem accessors_after_failed_discovery_return_data :
    (DiscoverDevices DiscoverySession.fresh .AllDevices true true registryFailBackend).2 =
      .failure ∧
    (GetNumDevices
      (DiscoverDevices DiscoverySession.fresh .AllDevices true true
        registryFailBackend).1).2 = 1 ∧
    (GetDeviceID
      (DiscoverDevices DiscoverySession.fresh .AllDevices true true
        registryFailBackend).1 0).2 = some "PCI\\VEN_10DE" := by
  exact ⟨rfl, rfl, rfl⟩

/-- C4 (amended): the failure sentinel of `GetNumDevices` and the error
reports of the per-device field accessors occur exactly when the session's
helper objects do not exist: before any Discover call, and still after a
first call that failed during helper construction (the constructors throw
inside the try block and are caught, leaving the helpers null).  Once the
helper objects exist — which a Discover call establishes as soon as it gets
past helper construction, even when a later stage fails — `GetNumDevices`
returns the current device list's size and field accessors return device
data for every in-range index, clearing the last error. -/
theorem accessor_state_gating (s : DiscoverySession) :
    (s.helpers = none →
      (GetNumDevices s).2 = -1 ∧
      (GetNumDevices s).1.lastError ≠ "" ∧
      (∀ (α : Type) (device : Nat) (sentinel : α) (field : Device → α),
        (deviceFieldAccessor s device sentinel field).2 = sentinel ∧
        (deviceFieldAccessor s device sentinel field).1.lastError ≠ "")) ∧
    (∀ es, s.helpers = some es →
      (GetNumDevices s).2 = (s.devices.length : Int) ∧
      (GetNumDevices s).1.lastError = "" ∧
      (∀ (α : Type) (device : Nat) (sentinel : α) (field : Device → α),
        device < s.devices.length →
        (deviceFieldAccessor s device sentinel field).2 =
          field (s.devices.getD device Device.init) ∧
        (deviceFieldAccessor s device sentinel field).1.lastError = "")) ∧
    (∀ (filter : DeviceFilter) (includeIntegrated includeDetachable : Bool)
       (b : DiscoverBackend) (err : DeviceDiscoveryError),
      s.helpers = none → b.constructionError = some err →
      (DiscoverDevices s filter includeIntegrated includeDetachable b).1.helpers = none) ∧
    (∀ (filter : DeviceFilter) (includeIntegrated includeDetachable : Bool)
       (b : DiscoverBackend) (err : DeviceDiscoveryError) (stateLeft : EnumerationState),
      (s.helpers.isSome = true ∨ b.constructionError = none) →
      b.enumOutcome = .threw err stateLeft →
      (DiscoverDevices s filter includeIntegrated includeDetachable b).1.helpers =
        some stateLeft) ∧
    (∀ (filter : DeviceFilter) (includeIntegrated includeDetachable : Bool)
       (b : DiscoverBackend) (lists : List AdapterListHandle),
      (s.helpers.isSome = true ∨ b.constructionError = none) →
      b.enumOutcome = .created lists →
      (DiscoverDevices s filter includeIntegrated includeDetachable b).1.helpers =
        some ⟨lists,
          sessionUniqueAdapters filter includeIntegrated includeDetachable lists⟩) := by
  refine ⟨?_, ?_, ?_, ?_, ?_⟩
  · intro hs
    have hhd : s.HaveDevices = false := by
      unfold DiscoverySession.HaveDevices
      rw [hs]
      rfl
    have hval : ∀ device : Nat, validateRequestedDevice s device =
        some (createError "attempted to retrieve device details before performing device discovery") := by
      intro device
      unfold validateRequestedDevice
      rw [hhd]
      rfl
    refine ⟨?_, ?_, ?_⟩
    · unfold GetNumDevices
      rw [hhd]
      rfl
    · unfold GetNumDevices
      rw [hhd]
      exact (by decide :
        ("attempted to retrieve device count before performing device discovery" : String) ≠ "")
    · intro α device sentinel field
      constructor
      · unfold deviceFieldAccessor
        rw [hval device]
      · unfold deviceFieldAccessor
        rw [hval device]
        exact (by decide :
          ("attempted to retrieve device details before performing device discovery" : String) ≠ "")
  · intro es hs
    have hhd : s.HaveDevices = true := by
      unfold DiscoverySession.HaveDevices
      rw [hs]
      rfl
    refine ⟨?_, ?_, ?_⟩
    · unfold GetNumDevices
      rw [hhd]
      rfl
    · unfold GetNumDevices
      rw [hhd]
      rfl
    · intro α device sentinel field hlt
      have hval : validateRequestedDevice s device = none := by
        unfold validateRequestedDevice
        rw [hhd]
        simp only [Bool.not_true, Bool.false_eq_true, if_false]
        rw [if_neg (by omega)]
      constructor
      · unfold deviceFieldAccessor
        rw [hval]
      · unfold deviceFieldAccessor
        rw [hval]
  · intro filter includeIntegrated includeDetachable b err hs hc
    rw [DiscoverDevices_ctor_fail s filter includeIntegrated includeDetachable b err hs hc]
    exact hs
  · intro filter includeIntegrated includeDetachable b err stateLeft hgo hEo
    rw [DiscoverDevices_threw s filter includeIntegrated includeDetachable b err stateLeft
      hgo hEo]
  · intro filter includeIntegrated includeDetachable b lists hgo hEo
    rw [DiscoverDevices_created s filter includeIntegrated includeDetachable b lists hgo hEo]
    exact discoverWithCorrelation_helpers s lists
      (sessionUniqueAdapters filter includeIntegrated includeDetachable lists)
      b.registryBackends
      (WmiQuery.GetDevicesForAdapters
        (sessionUniqueAdapters filter includeIntegrated includeDetachable lists)
        b.pnpQueryResult)

/-- Witness for C4 (amended): the fresh session reports the sentinel and an
error message; a session with constructed helpers and one device reports
the count and the device's data; a construction-stage failure leaves the
helpers null while enumeration-stage and WMI-stage failures leave them
constructed. -/
theorem accessor_state_gating_witness :
    (GetNumDevices DiscoverySession.fresh).2 = -1 ∧
    (GetNumDevices DiscoverySession.fresh).1.lastError ≠ "" ∧
    (deviceFieldAccessor DiscoverySession.fresh 0 (none : Option String)
        (fun d => some d.ID)).2 = none ∧
    (GetNumDevices oldSession).2 = (oldSession.devices.length : Int) ∧
    (deviceFieldAccessor oldSession 0 (none : Option String) (fun d => some d.ID)).2 =
      some (oldSession.devices.getD 0 Device.init).ID ∧
    (DiscoverDevices DiscoverySession.fresh .AllDevices true true
      { successBackend with
          constructionError := some (createError "CoCreateInstance failed") }).1.helpers =
      none ∧
    (DiscoverDevices DiscoverySession.fresh .AllDevices true true
      enumFailBackend).1.helpers = some ⟨[], []⟩ ∧
    (DiscoverDevices DiscoverySession.fresh .AllDevices true true
      wmiFailBackend).1.helpers =
      some ⟨goodLists, sessionUniqueAdapters .AllDevices true true goodLists⟩ := by
  refine ⟨?_, ?_, ?_, ?_, ?_, ?_, ?_, ?_⟩
  · exact ((accessor_state_gating DiscoverySession.fresh).1 rfl).1
  · exact ((accessor_state_gating DiscoverySession.fresh).1 rfl).2.1
  · exact (((accessor_state_gating DiscoverySession.fresh).1 rfl).2.2
      (Option String) 0 none (fun d => some d.ID)).1
  · exact ((accessor_state_gating oldSession).2.1
      ⟨goodLists, sampleAdapterMap⟩ rfl).1
  · exact (((accessor_state_gating oldSession).2.1
      ⟨goodLists, sampleAdapterMap⟩ rfl).2.2 (Option String) 0 none (fun d => some d.ID)
      (by decide)).1
  · exact (accessor_state_gating DiscoverySession.fresh).2.2.1 .AllDevices true true
      { successBackend with
          constructionError := some (createError "CoCreateInstance failed") }
      (createError "CoCreateInstance failed") rfl rfl
  · exact (accessor_state_gating DiscoverySession.fresh).2.2.2.1 .AllDevices true true
      enumFailBackend (createError "CreateAdapterList failed") ⟨[], []⟩ (Or.inr rfl) rfl
  · exact (accessor_state_gating DiscoverySession.fresh).2.2.2.2 .AllDevices true true
      wmiFailBackend goodLists (Or.inr rfl) rfl

/-- C5 (counterexample): a fresh session's only Discover call fails at the
WMI stage after a successful, non-stale enumeration; discovery has never
succeeded, yet `IsRefreshRequired` returns false because the helper objects
exist and the held adapter lists are fresh. -/
theorem refresh_not_required_after_failed_discovery :
    (DiscoverDevices DiscoverySession.fresh .AllDevices true true wmiFailBackend).2 =
      .failure ∧
    (DiscoverDevices DiscoverySession.fresh .AllDevices true true
      wmiFailBackend).1.IsRefreshRequired = false := by
  exact ⟨rfl, rfl⟩

/-- C5 (amended): `IsRefreshRequired` is true before any Discover attempt;
after any attempt whose enumeration created adapter lists — successful or
not — it reports the staleness of those lists: false when at least one list
is held and none is stale, true when some held list is stale. -/
theorem refresh_staleness_characterization :
    DiscoverySession.fresh.IsRefreshRequired = true ∧
    (∀ (s : DiscoverySession) (filter : DeviceFilter) (includeIntegrated includeDetachable : Bool)
       (b : DiscoverBackend) (lists : List AdapterListHandle),
      (s.helpers.isSome = true ∨ b.constructionError = none) →
      b.enumOutcome = .created lists →
      lists.isEmpty = false →
      lists.all (fun l => !l.stale) = true →
      (DiscoverDevices s filter includeIntegrated includeDetachable b).1.IsRefreshRequired =
        false) ∧
    (∀ (s : DiscoverySession) (filter : DeviceFilter) (includeIntegrated includeDetachable : Bool)
       (b : DiscoverBackend) (lists : List AdapterListHandle),
      (s.helpers.isSome = true ∨ b.constructionError = none) →
      b.enumOutcome = .created lists →
      lists.any (fun l => l.stale) = true →
      (DiscoverDevices s filter includeIntegrated includeDetachable b).1.IsRefreshRequired =
        true) := by
  refine ⟨rfl, ?_, ?_⟩
  · intro s filter includeIntegrated includeDetachable b lists hgo hEo hne hall
    rw [DiscoverDevices_created s filter includeIntegrated includeDetachable b lists hgo hEo]
    unfold DiscoverySession.IsRefreshRequired
    rw [discoverWithCorrelation_helpers]
    have hany : lists.any (fun l => l.stale) = false := by
      cases hA : lists.any (fun l => l.stale) with
      | false => rfl
      | true =>
        rcases List.any_eq_true.mp hA with ⟨l, hl, hstale⟩
        have := List.all_eq_true.mp hall l hl
        rw [hstale] at this
        cases this
    show EnumerationState.IsStale ⟨lists, _⟩ = false
    unfold EnumerationState.IsStale
    rw [hne, hany]
    rfl
  · intro s filter includeIntegrated includeDetachable b lists hgo hEo hany
    rw [DiscoverDevices_created s filter includeIntegrated includeDetachable b lists hgo hEo]
    unfold DiscoverySession.IsRefreshRequired
    rw [discoverWithCorrelation_helpers]
    show EnumerationState.IsStale ⟨lists, _⟩ = true
    unfold EnumerationState.IsStale
    rw [hany]
    simp

/-- Witness for C5 (amended): a successful run over a fresh, non-stale list
clears the refresh requirement; a run whose enumeration produced a stale
list keeps it set. -/
theorem refresh_staleness_characterization_witness :
    (DiscoverDevices DiscoverySession.fresh .AllDevices true true
      successBackend).1.IsRefreshRequired = false ∧
    (DiscoverDevices DiscoverySession.fresh .AllDevices true true
      staleListsBackend).1.IsRefreshRequired = true := by
  constructor
  · exact refresh_staleness_characterization.2.1 DiscoverySession.fresh .AllDevices true true
      successBackend goodLists (Or.inr rfl) rfl rfl (by decide)
  · exact refresh_staleness_characterization.2.2 DiscoverySession.fresh .AllDevices true true
      staleListsBackend staleLists (Or.inr rfl) rfl (by decide)
